import Mathlib

/-!
Shallow embedding of the `yekaifeng/installer` repository sources:
the generated Azure Recovery Services `VaultsClient`, four Terraform
resource handlers (DataShare, Cosmos Mongo Collection, Spring Cloud App,
EventGrid Domain Topic) and two resource-ID parsing helpers.

Go values are modelled as follows: pointers become `Option`, `error`
results become `Option Err` (with `none` = `nil`), external client calls
become oracle fields of per-handler environment structures, and Terraform
state (`*schema.ResourceData`) becomes an explicit `TFState` record.
Machine integer conversions (`int32(v)`) are modelled with explicit
wrap-around on `Int`.
-/

namespace Installer

/-- Errors, mirroring the ways the Go sources build `error` values:
`fmt.Errorf` with no wrapped error (`msg`), `fmt.Errorf("...: %+v", err)`
(`wrap`), `tf.ImportAsExistsError` (`importAsExists`),
`autorest.NewErrorWithError` (`autorestWrap`), and the shard-key count
error of the Cosmos read handler (`shardKeys`). -/
inductive Err where
  | msg (s : String)
  | wrap (s : String) (e : Err)
  | importAsExists (resourceType existingId : String)
  | autorestWrap (packageType method message : String) (e : Err)
  | shardKeys (n : Nat)
  deriving DecidableEq, Repr

/-- `documentdb.MongoIndexKeys` (field `Keys *[]string`). -/
structure MongoIndexKeys where
  keys : Option (List String)
  deriving DecidableEq, Repr

/-- `documentdb.MongoIndexOptions` (`Unique *bool`, `ExpireAfterSeconds *int32`).
The `int32` is carried as an `Int` that is always in int32 range when
produced by this code. -/
structure MongoIndexOptions where
  unique : Option Bool
  expireAfterSeconds : Option Int
  deriving DecidableEq, Repr

/-- `documentdb.MongoIndex` (`Key *MongoIndexKeys`, `Options *MongoIndexOptions`). -/
structure MongoIndex where
  key : Option MongoIndexKeys
  options : Option MongoIndexOptions
  deriving DecidableEq, Repr

/-- One element of the Terraform `index` set (and of the flattened
`index` / `system_indexes` outputs): a map with a `keys` list and a
`unique` bool. -/
structure MongoIndexMap where
  keys : List String
  unique : Bool
  deriving DecidableEq, Repr

/-- One element of the DataShare `snapshot_schedule` list: a map with
`name`, `recurrence` and `start_time` entries.  `name` is an `Option`
because the flattened map stores the SDK's `*string` name directly. -/
structure SnapMap where
  name : Option String
  recurrence : String
  startTime : String
  deriving DecidableEq, Repr

/-- Terraform attribute values as used by these handlers. -/
inductive Attr where
  | str (s : String)
  | ostr (s : Option String)
  | int (n : Int)
  | oint (n : Option Int)
  | bool (b : Bool)
  | idx (l : List MongoIndexMap)
  | snap (l : List SnapMap)
  | null
  deriving DecidableEq, Repr

/-- Terraform state for one resource: the resource ID (`d.Id()` /
`d.SetId`) plus the attribute map (`d.Get` / `d.Set`).  `d.Set` prepends,
`attrLookup` reads the most recent binding. -/
structure TFState where
  id : String
  attrs : List (String × Attr)
  deriving DecidableEq, Repr

def dSetId (st : TFState) (v : String) : TFState :=
  { st with id := v }

def dSet (st : TFState) (k : String) (v : Attr) : TFState :=
  { st with attrs := (k, v) :: st.attrs }

def attrLookup (st : TFState) (k : String) : Option Attr :=
  st.attrs.lookup k

/-- `d.Get(k).(string)`: the Go type assertion on a missing key would
yield the zero value. -/
def dGetStr (st : TFState) (k : String) : String :=
  match attrLookup st k with
  | some (.str s) => s
  | _ => ""

/-- `d.Get(k).(int)`. -/
def dGetInt (st : TFState) (k : String) : Int :=
  match attrLookup st k with
  | some (.int n) => n
  | _ => 0

/-- `d.Get("index").(*schema.Set).List()` as a list of index maps. -/
def dGetIdx (st : TFState) (k : String) : List MongoIndexMap :=
  match attrLookup st k with
  | some (.idx l) => l
  | _ => []

/-- `d.Get("snapshot_schedule").([]interface{})`. -/
def dGetSnap (st : TFState) (k : String) : List SnapMap :=
  match attrLookup st k with
  | some (.snap l) => l
  | _ => []

/-- `d.GetOk("snapshot_schedule")`: present and not the zero value. -/
def dGetOkSnap (st : TFState) (k : String) : Bool :=
  match attrLookup st k with
  | some (.snap l) => !l.isEmpty
  | _ => false

/-- Go `int32(v)` conversion from `int` (64-bit): wrap-around into
`[-2^31, 2^31)`. -/
def toInt32 (n : Int) : Int :=
  (n + 2 ^ 31) % 2 ^ 32 - 2 ^ 31

/-- The loop body of `expandCosmosMongoCollectionIndex`: one Terraform
index map becomes a `MongoIndex` with its keys and `Unique` option. -/
def expandCosmosIndexEntry (ix : MongoIndexMap) : MongoIndex :=
  { key := some { keys := some ix.keys }
    options := some { unique := some ix.unique, expireAfterSeconds := none } }

/-- `expandCosmosMongoCollectionIndex` from
`cosmosdb_mongo_collection_resource.go`: each Terraform index map becomes
a `MongoIndex` with its keys and `Unique` option; a non-nil default TTL
appends a `"_ts"` index carrying `ExpireAfterSeconds: int32(*defaultTtl)`. -/
def expandCosmosMongoCollectionIndex (indexes : List MongoIndexMap) (defaultTtl : Option Int) :
    List MongoIndex :=
  let results : List MongoIndex :=
    if indexes.length ≠ 0 then indexes.map expandCosmosIndexEntry
    else []
  match defaultTtl with
  | some t =>
      results ++ [{ key := some { keys := some ["_ts"] }
                    options := some { unique := none, expireAfterSeconds := some (toInt32 t) } }]
  | none => results

/-- One step of the `flattenCosmosMongoCollectionIndex` loop, acting on the
accumulator `(indexes, systemIndexes, ttl)`. -/
def flattenCosmosIndexStep (acc : List MongoIndexMap × List MongoIndexMap × Option Int)
    (v : MongoIndex) : List MongoIndexMap × List MongoIndexMap × Option Int :=
  let indexes := acc.1
  let systemIndexes := acc.2.1
  let ttl := acc.2.2
  match v.key with
  | none => (indexes, systemIndexes, ttl)
  | some k =>
    match k.keys with
    | none => (indexes, systemIndexes, ttl)
    | some ks =>
      match ks with
      | [] => (indexes, systemIndexes, ttl)
      | key :: _ =>
        if key = "_id" then
          (indexes, systemIndexes ++ [{ keys := ks, unique := true }], ttl)
        else if key = "DocumentDBDefaultIndex" then
          let isUnique := match v.options with
            | some o => o.unique.getD false
            | none => false
          (indexes, systemIndexes ++ [{ keys := ks, unique := isUnique }], ttl)
        else if key = "_ts" then
          match v.options with
          | some o =>
            match o.expireAfterSeconds with
            | some t => (indexes, systemIndexes, some t)
            | none => (indexes, systemIndexes, ttl)
          | none => (indexes, systemIndexes, ttl)
        else
          let isUnique := match v.options with
            | some o => o.unique.getD false
            | none => false
          (indexes ++ [{ keys := ks, unique := isUnique }], systemIndexes, ttl)

/-- `flattenCosmosMongoCollectionIndex` from
`cosmosdb_mongo_collection_resource.go`: splits the API's index list into
user `index` entries, `system_indexes` entries (first key `"_id"` or
`"DocumentDBDefaultIndex"`), and the `default_ttl_seconds` value taken
from a `"_ts"` index with `ExpireAfterSeconds`. -/
def flattenCosmosMongoCollectionIndex (input : Option (List MongoIndex)) :
    List MongoIndexMap × List MongoIndexMap × Option Int :=
  match input with
  | none => ([], [], none)
  | some l => l.foldl flattenCosmosIndexStep ([], [], none)

/-! ## Generated VaultsClient (recoveryservices, `part_000`) -/

/-- The generated Recovery Services vaults client: carries the base URI
and the subscription ID (`BaseClient` fields used by the preparers). -/
structure VaultsClient where
  baseURI : String
  subscriptionID : String
  deriving DecidableEq, Repr

/-- A prepared HTTP request, as assembled by the autorest decorators the
preparers pass to `autorest.CreatePreparer`: the verb, optional content
type, base URL, the path template together with the encoded path
parameter map, the query parameter map, and whether a JSON body was
attached.  Modelled from the spec: the autorest preparer pipeline itself
is an external collaborator; this record keeps exactly what the generated
code in `part_000` feeds it. -/
structure PreparedRequest where
  method : String
  contentType : Option String
  baseURL : String
  pathTemplate : String
  pathParams : List (String × String)
  query : List (String × String)
  hasJSONBody : Bool
  deriving DecidableEq, Repr

def emptyPreparedRequest : PreparedRequest :=
  { method := "GET", contentType := none, baseURL := "", pathTemplate := ""
    pathParams := [], query := [], hasJSONBody := false }

def asContentType (ct : String) (r : PreparedRequest) : PreparedRequest :=
  { r with contentType := some ct }

def asPut (r : PreparedRequest) : PreparedRequest :=
  { r with method := "PUT" }

def asGet (r : PreparedRequest) : PreparedRequest :=
  { r with method := "GET" }

def asDelete (r : PreparedRequest) : PreparedRequest :=
  { r with method := "DELETE" }

def asPatch (r : PreparedRequest) : PreparedRequest :=
  { r with method := "PATCH" }

def withBaseURL (u : String) (r : PreparedRequest) : PreparedRequest :=
  { r with baseURL := u }

def withPathParameters (tmpl : String) (ps : List (String × String))
    (r : PreparedRequest) : PreparedRequest :=
  { r with pathTemplate := tmpl, pathParams := ps }

def withJSON (r : PreparedRequest) : PreparedRequest :=
  { r with hasJSONBody := true }

def withQueryParameters (qs : List (String × String)) (r : PreparedRequest) :
    PreparedRequest :=
  { r with query := qs }

/-- `autorest.CreatePreparer(...).Prepare(...)`: apply the decorators in
order to an empty request. -/
def createPreparer (ds : List (PreparedRequest → PreparedRequest)) : PreparedRequest :=
  ds.foldl (fun r d => d r) emptyPreparedRequest

def hexDigitUpper (n : Nat) : Char :=
  if n < 10 then Char.ofNat (48 + n) else Char.ofNat (55 + n)

/-- Characters `url.PathEscape` leaves unescaped in a path segment:
alphanumerics, `-._~` and the sub-delimiters allowed in a segment. -/
def isPathSegmentChar (c : Char) : Bool :=
  c.isAlphanum || c = '-' || c = '.' || c = '_' || c = '~' || c = '$' ||
    c = '&' || c = '+' || c = ',' || c = ':' || c = ';' || c = '=' || c = '@'

def percentEncodeChar (c : Char) : List Char :=
  ['%', hexDigitUpper (c.toNat / 16 % 16), hexDigitUpper (c.toNat % 16)]

/-- Modelled from the spec: `autorest.Encode("path", s)` percent-encodes a
path segment (the URL escaping itself is owned by the external HTTP
layer; only ASCII inputs are modelled byte-exactly). -/
def pathEscape (s : String) : String :=
  ⟨s.data.foldr
    (fun c acc => if isPathSegmentChar c then c :: acc else percentEncodeChar c ++ acc) []⟩

/-- `autorest.Encode("path", value)`. -/
def autorestEncodePath (v : String) : String :=
  pathEscape v

def vaultsAPIVersion : String := "2016-06-01"

def vaultsResourceTemplate : String :=
  "/subscriptions/\x7bsubscriptionId\x7d/resourceGroups/\x7bresourceGroupName\x7d/providers/Microsoft.RecoveryServices/vaults/\x7bvaultName\x7d"

def vaultsGroupTemplate : String :=
  "/subscriptions/\x7bsubscriptionId\x7d/resourceGroups/\x7bresourceGroupName\x7d/providers/Microsoft.RecoveryServices/vaults"

def vaultsSubscriptionTemplate : String :=
  "/subscriptions/\x7bsubscriptionId\x7d/providers/Microsoft.RecoveryServices/vaults"

/-- `VaultsClient.CreateOrUpdatePreparer`. -/
def createOrUpdatePreparer (client : VaultsClient) (resourceGroupName vaultName : String) :
    PreparedRequest :=
  let pathParameters :=
    [("resourceGroupName", autorestEncodePath resourceGroupName),
     ("subscriptionId", autorestEncodePath client.subscriptionID),
     ("vaultName", autorestEncodePath vaultName)]
  let queryParameters := [("api-version", vaultsAPIVersion)]
  createPreparer
    [asContentType "application/json; charset=utf-8", asPut,
     withBaseURL client.baseURI,
     withPathParameters vaultsResourceTemplate pathParameters,
     withJSON,
     withQueryParameters queryParameters]

/-- `VaultsClient.DeletePreparer`. -/
def deletePreparer (client : VaultsClient) (resourceGroupName vaultName : String) :
    PreparedRequest :=
  let pathParameters :=
    [("resourceGroupName", autorestEncodePath resourceGroupName),
     ("subscriptionId", autorestEncodePath client.subscriptionID),
     ("vaultName", autorestEncodePath vaultName)]
  let queryParameters := [("api-version", vaultsAPIVersion)]
  createPreparer
    [asDelete,
     withBaseURL client.baseURI,
     withPathParameters vaultsResourceTemplate pathParameters,
     withQueryParameters queryParameters]

/-- `VaultsClient.GetPreparer`. -/
def getPreparer (client : VaultsClient) (resourceGroupName vaultName : String) :
    PreparedRequest :=
  let pathParameters :=
    [("resourceGroupName", autorestEncodePath resourceGroupName),
     ("subscriptionId", autorestEncodePath client.subscriptionID),
     ("vaultName", autorestEncodePath vaultName)]
  let queryParameters := [("api-version", vaultsAPIVersion)]
  createPreparer
    [asGet,
     withBaseURL client.baseURI,
     withPathParameters vaultsResourceTemplate pathParameters,
     withQueryParameters queryParameters]

/-- `VaultsClient.ListByResourceGroupPreparer`. -/
def listByResourceGroupPreparer (client : VaultsClient) (resourceGroupName : String) :
    PreparedRequest :=
  let pathParameters :=
    [("resourceGroupName", autorestEncodePath resourceGroupName),
     ("subscriptionId", autorestEncodePath client.subscriptionID)]
  let queryParameters := [("api-version", vaultsAPIVersion)]
  createPreparer
    [asGet,
     withBaseURL client.baseURI,
     withPathParameters vaultsGroupTemplate pathParameters,
     withQueryParameters queryParameters]

/-- `VaultsClient.ListBySubscriptionIDPreparer`. -/
def listBySubscriptionIDPreparer (client : VaultsClient) : PreparedRequest :=
  let pathParameters :=
    [("subscriptionId", autorestEncodePath client.subscriptionID)]
  let queryParameters := [("api-version", vaultsAPIVersion)]
  createPreparer
    [asGet,
     withBaseURL client.baseURI,
     withPathParameters vaultsSubscriptionTemplate pathParameters,
     withQueryParameters queryParameters]

/-- `VaultsClient.UpdatePreparer`. -/
def updatePreparer (client : VaultsClient) (resourceGroupName vaultName : String) :
    PreparedRequest :=
  let pathParameters :=
    [("resourceGroupName", autorestEncodePath resourceGroupName),
     ("subscriptionId", autorestEncodePath client.subscriptionID),
     ("vaultName", autorestEncodePath vaultName)]
  let queryParameters := [("api-version", vaultsAPIVersion)]
  createPreparer
    [asContentType "application/json; charset=utf-8", asPatch,
     withBaseURL client.baseURI,
     withPathParameters vaultsResourceTemplate pathParameters,
     withJSON,
     withQueryParameters queryParameters]

/-! ### VaultsClient operations: stage structure (claim C7) -/

/-- A vault DTO; its contents are irrelevant to the claims. -/
structure Vault where
  id : Option String
  name : Option String
  deriving DecidableEq, Repr

/-- Oracle outcomes for the three stages of one client operation:
Preparer, Sender, Responder. -/
structure VaultsOpEnv (α : Type) where
  prepare : Except Err Unit
  send : Except Err Unit
  respond : Except Err α

/-- Result of one client operation, with flags recording whether the
Sender and the Responder were ever invoked. -/
structure VaultsOpResult (α : Type) where
  val : Option α
  err : Option Err
  sent : Bool
  responded : Bool
  deriving Repr

/-- `VaultsClient.CreateOrUpdate` (`part_000`, lines 49-79): prepare,
send, respond; each failure is wrapped via `autorest.NewErrorWithError`
with the client name, the method name and a stage message, and the
function returns at the first failing stage. -/
def vaultsCreateOrUpdate (env : VaultsOpEnv Vault) : VaultsOpResult Vault :=
  match env.prepare with
  | .error e =>
      { val := none, sent := false, responded := false
        err := some (.autorestWrap "recoveryservices.VaultsClient" "CreateOrUpdate"
          "Failure preparing request" e) }
  | .ok _ =>
    match env.send with
    | .error e =>
        { val := none, sent := true, responded := false
          err := some (.autorestWrap "recoveryservices.VaultsClient" "CreateOrUpdate"
            "Failure sending request" e) }
    | .ok _ =>
      match env.respond with
      | .error e =>
          { val := none, sent := true, responded := true
            err := some (.autorestWrap "recoveryservices.VaultsClient" "CreateOrUpdate"
              "Failure responding to request" e) }
      | .ok v => { val := some v, err := none, sent := true, responded := true }

/-- `VaultsClient.Delete` (`part_000`, lines 127-157). -/
def vaultsDelete (env : VaultsOpEnv Unit) : VaultsOpResult Unit :=
  match env.prepare with
  | .error e =>
      { val := none, sent := false, responded := false
        err := some (.autorestWrap "recoveryservices.VaultsClient" "Delete"
          "Failure preparing request" e) }
  | .ok _ =>
    match env.send with
    | .error e =>
        { val := none, sent := true, responded := false
          err := some (.autorestWrap "recoveryservices.VaultsClient" "Delete"
            "Failure sending request" e) }
    | .ok _ =>
      match env.respond with
      | .error e =>
          { val := none, sent := true, responded := true
            err := some (.autorestWrap "recoveryservices.VaultsClient" "Delete"
              "Failure responding to request" e) }
      | .ok v => { val := some v, err := none, sent := true, responded := true }

/-- `VaultsClient.Get` (`part_000`, lines 202-232). -/
def vaultsGet (env : VaultsOpEnv Vault) : VaultsOpResult Vault :=
  match env.prepare with
  | .error e =>
      { val := none, sent := false, responded := false
        err := some (.autorestWrap "recoveryservices.VaultsClient" "Get"
          "Failure preparing request" e) }
  | .ok _ =>
    match env.send with
    | .error e =>
        { val := none, sent := true, responded := false
          err := some (.autorestWrap "recoveryservices.VaultsClient" "Get"
            "Failure sending request" e) }
    | .ok _ =>
      match env.respond with
      | .error e =>
          { val := none, sent := true, responded := true
            err := some (.autorestWrap "recoveryservices.VaultsClient" "Get"
              "Failure responding to request" e) }
      | .ok v => { val := some v, err := none, sent := true, responded := true }

/-- `VaultsClient.Update` (`part_000`, lines 500-530). -/
def vaultsUpdate (env : VaultsOpEnv Vault) : VaultsOpResult Vault :=
  match env.prepare with
  | .error e =>
      { val := none, sent := false, responded := false
        err := some (.autorestWrap "recoveryservices.VaultsClient" "Update"
          "Failure preparing request" e) }
  | .ok _ =>
    match env.send with
    | .error e =>
        { val := none, sent := true, responded := false
          err := some (.autorestWrap "recoveryservices.VaultsClient" "Update"
            "Failure sending request" e) }
    | .ok _ =>
      match env.respond with
      | .error e =>
          { val := none, sent := true, responded := true
            err := some (.autorestWrap "recoveryservices.VaultsClient" "Update"
              "Failure responding to request" e) }
      | .ok v => { val := some v, err := none, sent := true, responded := true }

/-! ### VaultsClient pagination (claim C6) -/

/-- `VaultList`: one page of the list response (`Value *[]Vault`,
`NextLink *string`). -/
structure VaultList where
  values : List Vault
  nextLink : Option String
  deriving DecidableEq, Repr

def emptyVaultList : VaultList := { values := [], nextLink := none }

/-- The request the page preparer builds from the next link. -/
structure NextRequest where
  url : String
  deriving DecidableEq, Repr

/-- Modelled from the spec: `VaultList.vaultListPreparer` (in the missing
generated models file) returns no request when the next-link field is
absent or empty, otherwise a GET request to the next link. -/
def vaultListPreparer (vl : VaultList) : Except Err (Option NextRequest) :=
  match vl.nextLink with
  | none => .ok none
  | some l => if l.length < 1 then .ok none else .ok (some { url := l })

/-- Oracle outcome of one `ListByResourceGroupSender` round trip plus its
responder. -/
structure SendOutcome where
  sendErr : Option Err
  respondErr : Option Err
  page : VaultList
  deriving Repr

/-- The sequence of sender outcomes used by successive next-page fetches. -/
structure VaultsListEnv where
  send : Nat → SendOutcome

/-- `VaultsClient.listByResourceGroupNextResults` (`part_000`, lines
349-368): prepare the next request from the previous page's next link; if
the request is nil return the zero `VaultList` with a nil error; otherwise
send and respond.  The extra components record whether the Sender was
invoked and the next sender index. -/
def listByResourceGroupNextResults (env : VaultsListEnv) (i : Nat) (lastResults : VaultList) :
    (VaultList × Option Err) × (Bool × Nat) :=
  match vaultListPreparer lastResults with
  | .error e =>
      ((emptyVaultList,
        some (.autorestWrap "recoveryservices.VaultsClient" "listByResourceGroupNextResults"
          "Failure preparing next results request" e)), (false, i))
  | .ok none => ((emptyVaultList, none), (false, i))
  | .ok (some _) =>
    let o := env.send i
    match o.sendErr with
    | some e =>
        ((emptyVaultList,
          some (.autorestWrap "recoveryservices.VaultsClient" "listByResourceGroupNextResults"
            "Failure sending next results request" e)), (true, i + 1))
    | none =>
      match o.respondErr with
      | some e =>
          ((emptyVaultList,
            some (.autorestWrap "recoveryservices.VaultsClient" "listByResourceGroupNextResults"
              "Failure responding to next results request" e)), (true, i + 1))
      | none => ((o.page, none), (true, i + 1))

/-- Modelled from the spec: the autorest `VaultListIterator` behind
`ListByResourceGroupComplete` visits the values of the current page and
crosses page boundaries via `listByResourceGroupNextResults`, stopping
when the fetched page is empty (which is what the next-results function
returns when no next link remains).  `fuel` bounds the number of page
fetches; any sufficiently large bound yields the same result. -/
def enumerateVaults (env : VaultsListEnv) : Nat → Nat → VaultList → List Vault × Option Err
  | 0, _, _ => ([], some (.msg "page fuel exhausted"))
  | fuel + 1, i, cur =>
    if cur.values.isEmpty then ([], none)
    else
      match listByResourceGroupNextResults env i cur with
      | ((_, some e), _) => (cur.values, some e)
      | ((next, none), (_, i')) =>
        if next.values.isEmpty then (cur.values, none)
        else
          let rest := enumerateVaults env fuel i' next
          (cur.values ++ rest.1, rest.2)

/-- The link structure of a chain of successive pages: every page before
the last produces a next request, every fetched page is non-empty, and
the last page produces none. -/
def chainOK : VaultList → List VaultList → Prop
  | cur, [] => vaultListPreparer cur = .ok none
  | cur, p :: rest =>
      (∃ r, vaultListPreparer cur = .ok (some r)) ∧ p.values ≠ [] ∧ chainOK p rest

/-- The environment serves the chain's pages in order starting at sender
index `i`. -/
def envSends (env : VaultsListEnv) : Nat → List VaultList → Prop
  | _, [] => True
  | i, p :: rest =>
      env.send i = { sendErr := none, respondErr := none, page := p } ∧
        envSends env (i + 1) rest

/-! ## Terraform resource handlers -/

/-- Observable events of a Create/Update/Delete handler run:
`start f` marks a future-returning client call that succeeded (the
long-running operation was started), `wait f` marks a
`WaitForCompletionRef` call on that future, `setId v` marks `d.SetId(v)`,
and `createCall` marks the create/update API call being issued. -/
inductive Ev where
  | start (f : String)
  | wait (f : String)
  | setId (v : String)
  | createCall
  deriving DecidableEq, Repr

/-- Result of a handler run: the final state, the returned error
(`none` = the handler returned `nil`), and the event log. -/
structure HR where
  st : TFState
  err : Option Err
  evs : List Ev
  deriving Repr

/-- The futures started but never waited on, in an event log. -/
def pendingFutures (evs : List Ev) : List String :=
  evs.foldl
    (fun acc e =>
      match e with
      | .start f => f :: acc
      | .wait f => acc.erase f
      | _ => acc) []

/-- Outcome of a client `Get`-style call: the error, whether
`utils.ResponseWasNotFound(resp.Response)` holds, and the (zero-valued on
failure) response body. -/
structure GetResp (α : Type) where
  err : Option Err
  notFound : Bool
  val : α

/-- Modelled from the spec: `features.ShouldResourcesBeImported` is not
under `src/`; the spec describes every create handler as a straight-line
`validate input → check existence → call API → ...` sequence, i.e. the
existence check is always performed, so the flag is modelled as `true`. -/
def shouldResourcesBeImported : Bool := true

/-! ### EventGrid Domain Topic (`part_001`) -/

/-- `parse.EventGridDomainTopicID` result. -/
structure EGId where
  resourceGroup : String
  domain : String
  name : String
  deriving DecidableEq, Repr

/-- The fields of an `eventgrid.DomainTopic` response used here. -/
structure EGTopic where
  id : Option String
  name : Option String
  deriving DecidableEq, Repr

structure EGReadEnv where
  parseId : String → Except Err EGId
  get : GetResp EGTopic

/-- `resourceArmEventGridDomainTopicRead` (`part_001`, lines 99-125). -/
def resourceArmEventGridDomainTopicRead (env : EGReadEnv) (st : TFState) :
    TFState × Option Err :=
  match env.parseId st.id with
  | .error e => (st, some e)
  | .ok id =>
    match env.get.err with
    | some e =>
      if env.get.notFound then (dSetId st "", none)
      else (st, some (.wrap "Error making Read request on EventGrid Domain Topic" e))
    | none =>
      let st := dSet st "name" (.ostr env.get.val.name)
      let st := dSet st "domain_name" (.str id.domain)
      let st := dSet st "resource_group_name" (.str id.resourceGroup)
      (st, none)

structure EGCreateEnv where
  isNew : Bool
  getExisting : GetResp EGTopic
  createErr : Option Err
  waitErr : Option Err
  getAfter : GetResp EGTopic
  readEnv : EGReadEnv

/-- `resourceArmEventGridDomainTopicCreate` after the import check
(`part_001`, lines 77-96): issue `CreateOrUpdate`, wait on its future,
re-read, require a non-nil ID, set it, and run the Read handler. -/
def egCreateCore (pre : List Ev) (env : EGCreateEnv) (st : TFState) : HR :=
  match env.createErr with
  | some e =>
      { st := st, err := some (.wrap "Error creating/updating EventGrid Domain Topic" e)
        evs := pre ++ [.createCall] }
  | none =>
    match env.waitErr with
    | some e =>
        { st := st
          err := some (.wrap "Error waiting for EventGrid Domain Topic to become available" e)
          evs := pre ++ [.createCall, .start "egCreateFuture", .wait "egCreateFuture"] }
    | none =>
      match env.getAfter.err with
      | some e =>
          { st := st, err := some (.wrap "Error retrieving EventGrid Domain Topic" e)
            evs := pre ++ [.createCall, .start "egCreateFuture", .wait "egCreateFuture"] }
      | none =>
        match env.getAfter.val.id with
        | none =>
            { st := st, err := some (.msg "Cannot read EventGrid Domain Topic ID")
              evs := pre ++ [.createCall, .start "egCreateFuture", .wait "egCreateFuture"] }
        | some i =>
          let st := dSetId st i
          let r := resourceArmEventGridDomainTopicRead env.readEnv st
          { st := r.1, err := r.2
            evs := pre ++ [.createCall, .start "egCreateFuture", .wait "egCreateFuture", .setId i] }

/-- The `existing.ID != nil && *existing.ID != ""` import check of
`resourceArmEventGridDomainTopicCreate` (`part_001`, lines 72-74). -/
def egCreateIdCheck (env : EGCreateEnv) (st : TFState) : HR :=
  match env.getExisting.val.id with
  | some i =>
    if i ≠ "" then
      { st := st, err := some (.importAsExists "azurerm_eventgrid_domain_topic" i), evs := [] }
    else egCreateCore [] env st
  | none => egCreateCore [] env st

/-- `resourceArmEventGridDomainTopicCreate` (`part_001`, lines 55-97). -/
def resourceArmEventGridDomainTopicCreate (env : EGCreateEnv) (st : TFState) : HR :=
  if shouldResourcesBeImported && env.isNew then
    match env.getExisting.err with
    | some e =>
      if !env.getExisting.notFound then
        { st := st
          err := some (.wrap "Error checking for presence of existing EventGrid Domain Topic" e)
          evs := [] }
      else egCreateIdCheck env st
    | none => egCreateIdCheck env st
  else egCreateCore [] env st

structure EGDeleteEnv where
  parseId : String → Except Err EGId
  deleteErr : Option Err
  deleteNotFound : Bool
  waitErr : Option Err
  waitNotFound : Bool

/-- `resourceArmEventGridDomainTopicDelete` (`part_001`, lines 127-153):
a delete error that is a not-found response returns `nil`; otherwise the
handler waits on the delete future, treating a not-found wait result as
success. -/
def resourceArmEventGridDomainTopicDelete (env : EGDeleteEnv) (st : TFState) : HR :=
  match env.parseId st.id with
  | .error e => { st := st, err := some e, evs := [] }
  | .ok _ =>
    match env.deleteErr with
    | some e =>
      if env.deleteNotFound then { st := st, err := none, evs := [] }
      else { st := st, err := some (.wrap "Error deleting EventGrid Domain Topic" e), evs := [] }
    | none =>
      match env.waitErr with
      | some e =>
        if env.waitNotFound then
          { st := st, err := none
            evs := [.start "egDeleteFuture", .wait "egDeleteFuture"] }
        else
          { st := st, err := some (.wrap "Error deleting EventGrid Domain Topic" e)
            evs := [.start "egDeleteFuture", .wait "egDeleteFuture"] }
      | none =>
          { st := st, err := none
            evs := [.start "egDeleteFuture", .wait "egDeleteFuture"] }

/-! ### Spring Cloud App (`spring_cloud_app_resource.go`) -/

/-- `parse.SpringCloudAppID` result. -/
structure SCId where
  resourceGroup : String
  serviceName : String
  name : String
  deriving DecidableEq, Repr

/-- The fields of an `appplatform.AppResource` response used here. -/
structure SCApp where
  id : Option String
  name : Option String
  deriving DecidableEq, Repr

structure SCReadEnv where
  parseId : String → Except Err SCId
  get : GetResp SCApp

/-- `resourceArmSpringCloudAppRead` (lines 96-121). -/
def resourceArmSpringCloudAppRead (env : SCReadEnv) (st : TFState) :
    TFState × Option Err :=
  match env.parseId st.id with
  | .error e => (st, some e)
  | .ok id =>
    match env.get.err with
    | some e =>
      if env.get.notFound then (dSetId st "", none)
      else (st, some (.wrap "reading Spring Cloud App" e))
    | none =>
      let st := dSet st "name" (.ostr env.get.val.name)
      let st := dSet st "resource_group_name" (.str id.resourceGroup)
      let st := dSet st "service_name" (.str id.serviceName)
      (st, none)

structure SCCreateEnv where
  getExisting : GetResp SCApp
  createErr : Option Err
  waitErr : Option Err
  getAfter : GetResp SCApp
  readEnv : SCReadEnv

/-- `resourceArmSpringCloudAppCreate` after the import check (lines
76-93): `CreateOrUpdate` returns a future that is waited on, the app is
re-read, and a nil or empty ID is an error. -/
def scCreateCore (env : SCCreateEnv) (st : TFState) : HR :=
  match env.createErr with
  | some e =>
      { st := st, err := some (.wrap "creating Spring Cloud App" e), evs := [.createCall] }
  | none =>
    match env.waitErr with
    | some e =>
        { st := st, err := some (.wrap "waiting for creation of Spring Cloud App" e)
          evs := [.createCall, .start "scCreateFuture", .wait "scCreateFuture"] }
    | none =>
      match env.getAfter.err with
      | some e =>
          { st := st, err := some (.wrap "retrieving Spring Cloud App" e)
            evs := [.createCall, .start "scCreateFuture", .wait "scCreateFuture"] }
      | none =>
        match env.getAfter.val.id with
        | none =>
            { st := st, err := some (.msg "read Spring Cloud App ID")
              evs := [.createCall, .start "scCreateFuture", .wait "scCreateFuture"] }
        | some i =>
          if i = "" then
            { st := st, err := some (.msg "read Spring Cloud App ID")
              evs := [.createCall, .start "scCreateFuture", .wait "scCreateFuture"] }
          else
            let st := dSetId st i
            let r := resourceArmSpringCloudAppRead env.readEnv st
            { st := r.1, err := r.2
              evs := [.createCall, .start "scCreateFuture", .wait "scCreateFuture", .setId i] }

/-- `resourceArmSpringCloudAppCreate` (lines 57-94).  The existence check
is unconditional here: no feature flag and no `IsNewResource` guard. -/
def resourceArmSpringCloudAppCreate (env : SCCreateEnv) (st : TFState) : HR :=
  match env.getExisting.err with
  | some e =>
    if !env.getExisting.notFound then
      { st := st, err := some (.wrap "checking for presence of existing Spring Cloud App" e)
        evs := [] }
    else
      match env.getExisting.val.id with
      | some i =>
        if i ≠ "" then
          { st := st, err := some (.importAsExists "azurerm_spring_cloud_app" i), evs := [] }
        else scCreateCore env st
      | none => scCreateCore env st
  | none =>
    match env.getExisting.val.id with
    | some i =>
      if i ≠ "" then
        { st := st, err := some (.importAsExists "azurerm_spring_cloud_app" i), evs := [] }
      else scCreateCore env st
    | none => scCreateCore env st

structure SCDeleteEnv where
  parseId : String → Except Err SCId
  deleteErr : Option Err

/-- `resourceArmSpringCloudAppDelete` (lines 123-138).  Modelled from the
spec: `AppsClient.Delete` of the 2019-05-01-preview SDK is not under
`src/`; per the spec every client call here is synchronous and blocking,
so the delete call returns no future. -/
def resourceArmSpringCloudAppDelete (env : SCDeleteEnv) (st : TFState) : HR :=
  match env.parseId st.id with
  | .error e => { st := st, err := some e, evs := [] }
  | .ok _ =>
    match env.deleteErr with
    | some e => { st := st, err := some (.wrap "deleting Spring Cloud App" e), evs := [] }
    | none => { st := st, err := none, evs := [] }

/-! ### DataShare (`resource_arm_data_share.go`) -/

/-- `parse.DataShareID` result. -/
structure DSId where
  resourceGroup : String
  accountName : String
  name : String
  deriving DecidableEq, Repr

/-- `parse.DataShareAccountID` result. -/
structure DSAccountId where
  resourceGroup : String
  name : String
  deriving DecidableEq, Repr

/-- `datashare.ShareProperties` fields used here. -/
structure DSProps where
  shareKind : String
  description : Option String
  terms : Option String
  deriving DecidableEq, Repr

/-- `datashare.Share` response fields used here. -/
structure DSShare where
  id : Option String
  props : Option DSProps
  deriving DecidableEq, Repr

/-- `date.Time` as observed by this code: `IsZero()` and
`Format(time.RFC3339)`.  Modelled from the spec: time handling is owned
by external libraries, so only these two observations are kept. -/
structure SyncTime where
  isZero : Bool
  rfc3339 : String
  deriving DecidableEq, Repr

/-- `datashare.ScheduledSynchronizationSetting` fields used here. -/
structure ScheduledSyncSetting where
  name : Option String
  id : Option String
  recurrenceInterval : String
  synchronizationTime : Option SyncTime
  deriving DecidableEq, Repr

/-- The value built by `expandAzureRmDataShareSnapshotSchedule`: kind
`ScheduleBased`, the recurrence, and the parsed start time (kept as the
raw string, see `SyncTime`). -/
structure SnapSettingOut where
  kind : String
  recurrenceInterval : String
  synchronizationTime : String
  deriving DecidableEq, Repr

/-- `expandAzureRmDataShareSnapshotSchedule` (lines 281-297): nil on an
empty list, otherwise built from the first entry. -/
def expandAzureRmDataShareSnapshotSchedule (input : List SnapMap) : Option SnapSettingOut :=
  match input with
  | [] => none
  | snapshotSchedule :: _ =>
      some { kind := "ScheduleBased"
             recurrenceInterval := snapshotSchedule.recurrence
             synchronizationTime := snapshotSchedule.startTime }

/-- `flattenAzureRmDataShareSnapshotSchedule` (lines 299-316). -/
def flattenAzureRmDataShareSnapshotSchedule (sync : Option ScheduledSyncSetting) :
    List SnapMap :=
  match sync with
  | none => []
  | some s =>
    let startTime :=
      match s.synchronizationTime with
      | some t => if !t.isZero then t.rfc3339 else ""
      | none => ""
    [{ name := s.name, recurrence := s.recurrenceInterval, startTime := startTime }]

structure DSReadEnv where
  parseId : String → Except Err DSId
  get : GetResp DSShare
  accountGetErr : Option Err
  accountGetId : Option String
  listErr : Option Err
  listNotDone : Bool
  listValueName : Option String
  syncGetErr : Option Err
  syncGetValue : ScheduledSyncSetting
  setSnapErr : Option Err
  nextErr : Option Err
  listNotDoneAfterNext : Bool

/-- Tail of `resourceArmDataShareRead`: `NextWithContext` and the
more-than-one check (lines 236-241). -/
def dsReadNext (env : DSReadEnv) (st : TFState) : TFState × Option Err :=
  match env.nextErr with
  | some e => (st, some (.wrap "listing DataShare snapshot schedule" e))
  | none =>
    if env.listNotDoneAfterNext then
      (st, some (.msg "more than one DataShare snapshot schedule is returned"))
    else (st, none)

/-- The `syncName` block of `resourceArmDataShareRead` (lines 225-235). -/
def dsReadSyncName (env : DSReadEnv) (st : TFState) : TFState × Option Err :=
  match env.listValueName with
  | some syncName =>
    if syncName ≠ "" then
      match env.syncGetErr with
      | some e => (st, some (.wrap "reading DataShare snapshot schedule" e))
      | none =>
        let schedule := env.syncGetValue
        match schedule.id with
        | some sid =>
          if sid ≠ "" then
            match env.setSnapErr with
            | some e => (st, some (.wrap "setting snapshot_schedule" e))
            | none =>
                dsReadNext env
                  (dSet st "snapshot_schedule"
                    (.snap (flattenAzureRmDataShareSnapshotSchedule (some schedule))))
          else dsReadNext env st
        | none => dsReadNext env st
    else dsReadNext env st
  | none => dsReadNext env st

/-- `resourceArmDataShareRead` (lines 182-245). -/
def resourceArmDataShareRead (env : DSReadEnv) (st : TFState) : TFState × Option Err :=
  match env.parseId st.id with
  | .error e => (st, some e)
  | .ok id =>
    match env.get.err with
    | some e =>
      if env.get.notFound then (dSetId st "", none)
      else (st, some (.wrap "retrieving DataShare" e))
    | none =>
      match env.accountGetErr with
      | some e => (st, some (.wrap "retrieving DataShare Account" e))
      | none =>
        match env.accountGetId with
        | none => (st, some (.msg "reading DataShare Account: ID is empty"))
        | some aid =>
          if aid = "" then (st, some (.msg "reading DataShare Account: ID is empty"))
          else
            let st := dSet st "name" (.str id.name)
            let st := dSet st "account_id" (.ostr env.accountGetId)
            let st :=
              match env.get.val.props with
              | some props =>
                  dSet (dSet (dSet st "kind" (.str props.shareKind))
                    "description" (.ostr props.description)) "terms" (.ostr props.terms)
              | none => st
            if env.listNotDone then
              match env.listErr with
              | some e => (st, some (.wrap "listing DataShare snapshot schedule" e))
              | none => dsReadSyncName env st
            else (st, none)

structure DSCreateEnv where
  parseAccount : String → Except Err DSAccountId
  isNew : Bool
  getExisting : GetResp DSShare
  createErr : Option Err
  getAfter : GetResp DSShare
  hasChangeSnapshot : Bool
  snapshotOld : List SnapMap
  syncDeleteErr : Option Err
  syncWaitErr : Option Err
  syncCreateErr : Option Err
  readEnv : DSReadEnv

/-- Final stage of `resourceArmDataShareCreateUpdate`: create the new
snapshot schedule if one is configured (lines 173-177), then run the Read
handler. -/
def dsCreateSync (evs : List Ev) (env : DSCreateEnv) (st : TFState) : HR :=
  match expandAzureRmDataShareSnapshotSchedule (dGetSnap st "snapshot_schedule") with
  | some _ =>
    match env.syncCreateErr with
    | some e =>
        { st := st, err := some (.wrap "creating DataShare snapshot schedule" e), evs := evs }
    | none =>
      let r := resourceArmDataShareRead env.readEnv st
      { st := r.1, err := r.2, evs := evs }
  | none =>
    let r := resourceArmDataShareRead env.readEnv st
    { st := r.1, err := r.2, evs := evs }

/-- The `HasChange("snapshot_schedule")` block of
`resourceArmDataShareCreateUpdate` (lines 156-171): delete the previous
schedule, waiting on the delete future. -/
def dsCreateSnapshot (evs : List Ev) (env : DSCreateEnv) (st : TFState) : HR :=
  if env.hasChangeSnapshot then
    match env.snapshotOld.head? with
    | some origin =>
      match origin.name with
      | some originName =>
        if originName ≠ "" then
          match env.syncDeleteErr with
          | some e =>
              { st := st, err := some (.wrap "deleting DataShare snapshot schedule" e)
                evs := evs }
          | none =>
            match env.syncWaitErr with
            | some e =>
                { st := st
                  err := some (.wrap "waiting for DataShare snapshot schedule to be deleted" e)
                  evs := evs ++ [.start "dsSyncDeleteFuture", .wait "dsSyncDeleteFuture"] }
            | none =>
                dsCreateSync (evs ++ [.start "dsSyncDeleteFuture", .wait "dsSyncDeleteFuture"])
                  env st
        else dsCreateSync evs env st
      | none => dsCreateSync evs env st
    | none => dsCreateSync evs env st
  else dsCreateSync evs env st

/-- `resourceArmDataShareCreateUpdate` after the existence check (lines
133-179): `SharesClient.Create` is synchronous, the share is re-read, a
nil or empty ID is an error, otherwise the ID is stored. -/
def dsCreateCore (pre : List Ev) (env : DSCreateEnv) (st : TFState) : HR :=
  match env.createErr with
  | some e =>
      { st := st, err := some (.wrap "creating DataShare" e), evs := pre ++ [.createCall] }
  | none =>
    match env.getAfter.err with
    | some e =>
        { st := st, err := some (.wrap "retrieving DataShare" e), evs := pre ++ [.createCall] }
    | none =>
      match env.getAfter.val.id with
      | none =>
          { st := st, err := some (.msg "reading DataShare: ID is empty")
            evs := pre ++ [.createCall] }
      | some i =>
        if i = "" then
          { st := st, err := some (.msg "reading DataShare: ID is empty")
            evs := pre ++ [.createCall] }
        else
          dsCreateSnapshot (pre ++ [.createCall, .setId i]) env (dSetId st i)

/-- The `existing.ID != nil && *existing.ID != ""` import check of
`resourceArmDataShareCreateUpdate` (lines 128-130). -/
def dsCreateIdCheck (env : DSCreateEnv) (st : TFState) : HR :=
  match env.getExisting.val.id with
  | some i =>
    if i ≠ "" then
      { st := st, err := some (.importAsExists "azurerm_data_share" i), evs := [] }
    else dsCreateCore [] env st
  | none => dsCreateCore [] env st

/-- `resourceArmDataShareCreateUpdate` (lines 109-180). -/
def resourceArmDataShareCreateUpdate (env : DSCreateEnv) (st : TFState) : HR :=
  match env.parseAccount (dGetStr st "account_id") with
  | .error e => { st := st, err := some e, evs := [] }
  | .ok _ =>
    if env.isNew then
      match env.getExisting.err with
      | some e =>
        if !env.getExisting.notFound then
          { st := st, err := some (.wrap "checking for present of existing DataShare" e)
            evs := [] }
        else dsCreateIdCheck env st
      | none => dsCreateIdCheck env st
    else dsCreateCore [] env st

structure DSDeleteEnv where
  parseId : String → Except Err DSId
  syncDeleteErr : Option Err
  syncWaitErr : Option Err
  deleteErr : Option Err
  waitErr : Option Err

/-- Tail of `resourceArmDataShareDelete`: delete the share itself and wait
on the delete future (lines 269-278). -/
def dsDeleteShare (evs : List Ev) (env : DSDeleteEnv) (st : TFState) : HR :=
  match env.deleteErr with
  | some e => { st := st, err := some (.wrap "deleting DataShare" e), evs := evs }
  | none =>
    match env.waitErr with
    | some e =>
        { st := st, err := some (.wrap "waiting for DataShare to be deleted" e)
          evs := evs ++ [.start "dsDeleteFuture", .wait "dsDeleteFuture"] }
    | none =>
        { st := st, err := none
          evs := evs ++ [.start "dsDeleteFuture", .wait "dsDeleteFuture"] }

/-- `resourceArmDataShareDelete` (lines 247-279): if a snapshot schedule
is configured it is deleted first (waiting on that future), then the
share delete future is created and waited on. -/
def resourceArmDataShareDelete (env : DSDeleteEnv) (st : TFState) : HR :=
  match env.parseId st.id with
  | .error e => { st := st, err := some e, evs := [] }
  | .ok _ =>
    if dGetOkSnap st "snapshot_schedule" then
      match env.syncDeleteErr with
      | some e =>
          { st := st, err := some (.wrap "deleting DataShare snapshot schedule" e), evs := [] }
      | none =>
        match env.syncWaitErr with
        | some e =>
            { st := st
              err := some (.wrap "waiting for DataShare snapshot schedule to be deleted" e)
              evs := [.start "dsSyncDeleteFuture", .wait "dsSyncDeleteFuture"] }
        | none =>
            dsDeleteShare [.start "dsSyncDeleteFuture", .wait "dsSyncDeleteFuture"] env st
    else dsDeleteShare [] env st

/-! ### Cosmos Mongo Collection (`cosmosdb_mongo_collection_resource.go`) -/

/-- `azure.ParseCosmosDatabaseCollectionID` result. -/
structure CosmosId where
  resourceGroup : String
  account : String
  database : String
  collection : String
  deriving DecidableEq, Repr

/-- `documentdb.MongoDBCollectionGetProperties` fields used here.  The
`ShardKey map[string]*string` is carried as an association list. -/
structure CosmosProps where
  id : Option String
  shardKey : List (String × String)
  indexes : Option (List MongoIndex)
  deriving DecidableEq, Repr

/-- `documentdb.MongoDBCollection` response fields used here. -/
structure CosmosColl where
  props : Option CosmosProps
  deriving DecidableEq, Repr

/-- Outcome of `GetMongoDBCollectionThroughput`. -/
structure ThroughputResp where
  err : Option Err
  notFound : Bool
  throughput : Option Int

structure CosmosReadEnv where
  parseId : String → Except Err CosmosId
  get : GetResp CosmosColl
  setTtlErr : Option Err
  setIndexErr : Option Err
  setSysErr : Option Err
  throughputGet : ThroughputResp

/-- Tail of `resourceArmCosmosDbMongoCollectionRead`: the throughput read
(lines 317-326): a non-not-found error fails, a not-found clears the
`throughput` attribute, success stores it. -/
def cosmosReadThroughput (env : CosmosReadEnv) (st : TFState) : TFState × Option Err :=
  match env.throughputGet.err with
  | some e =>
    if !env.throughputGet.notFound then
      (st, some (.wrap "Error reading Throughput on Cosmos Mongo Collection" e))
    else (dSet st "throughput" .null, none)
  | none => (dSet st "throughput" (.oint env.throughputGet.throughput), none)

/-- The `props != nil` block of `resourceArmCosmosDbMongoCollectionRead`
(lines 293-315): name, the shard-key count check (`> 2` fails), the
shard-key loop, and the flattened indexes/ttl. -/
def cosmosReadProps (env : CosmosReadEnv) (st : TFState) : TFState × Option Err :=
  match env.get.val.props with
  | none => cosmosReadThroughput env st
  | some props =>
    let st := dSet st "name" (.ostr props.id)
    if props.shardKey.length > 2 then (st, some (.shardKeys props.shardKey.length))
    else
      let st := props.shardKey.foldl (fun s kv => dSet s "shard_key" (.str kv.1)) st
      let flat := flattenCosmosMongoCollectionIndex props.indexes
      match env.setTtlErr with
      | some e => (st, some (.wrap "failed to set default_ttl_seconds" e))
      | none =>
        let st := dSet st "default_ttl_seconds" (.oint flat.2.2)
        match env.setIndexErr with
        | some e => (st, some (.wrap "failed to set index" e))
        | none =>
          let st := dSet st "index" (.idx flat.1)
          match env.setSysErr with
          | some e => (st, some (.wrap "failed to set system_indexes" e))
          | none =>
            let st := dSet st "system_indexes" (.idx flat.2.1)
            cosmosReadThroughput env st

/-- `resourceArmCosmosDbMongoCollectionRead` (lines 269-329). -/
def resourceArmCosmosDbMongoCollectionRead (env : CosmosReadEnv) (st : TFState) :
    TFState × Option Err :=
  match env.parseId st.id with
  | .error e => (st, some e)
  | .ok id =>
    match env.get.err with
    | some e =>
      if env.get.notFound then (dSetId st "", none)
      else (st, some (.wrap "Error reading Cosmos Mongo Collection" e))
    | none =>
      let st := dSet st "resource_group_name" (.str id.resourceGroup)
      let st := dSet st "account_name" (.str id.account)
      let st := dSet st "database_name" (.str id.database)
      cosmosReadProps env st

/-- The `MongoDBCollectionCreateUpdateParameters` resource the create and
update handlers build (lines 159-179 and 219-233). -/
structure MongoCollParams where
  id : String
  indexes : List MongoIndex
  shardKey : List (String × String)
  throughput : Option String
  deriving DecidableEq, Repr

/-- Build the create/update parameters from the configuration, as both
handlers do: a positive `default_ttl_seconds` becomes the TTL, the
`index` set is expanded, a non-empty `shard_key` becomes a one-entry
`Hash` map. -/
def cosmosBuildParams (st : TFState) (name : String) (throughput : Option String) :
    MongoCollParams :=
  let ttl : Option Int :=
    if dGetInt st "default_ttl_seconds" > 0 then some (dGetInt st "default_ttl_seconds")
    else none
  let shardKey := dGetStr st "shard_key"
  { id := name
    indexes := expandCosmosMongoCollectionIndex (dGetIdx st "index") ttl
    shardKey := if shardKey ≠ "" then [(shardKey, "Hash")] else []
    throughput := throughput }

structure CosmosCreateEnv where
  getExisting : GetResp CosmosColl
  importIdResult : Except Err String
  createErr : Option Err
  waitErr : Option Err
  getAfter : GetResp CosmosColl
  afterIdResult : Except Err String
  readEnv : CosmosReadEnv

/-- `resourceArmCosmosDbMongoCollectionCreate` after the existence check
(lines 154-201): issue the create/update, wait on its future, re-read,
extract the ID from the response, store it, and run the Read handler. -/
def cosmosCreateCore (env : CosmosCreateEnv) (st : TFState) : HR :=
  let _params := cosmosBuildParams st (dGetStr st "name")
    (match attrLookup st "throughput" with
     | some (.int n) => some (toString n)
     | _ => none)
  match env.createErr with
  | some e =>
      { st := st
        err := some (.wrap "Error issuing create/update request for Cosmos Mongo Collection" e)
        evs := [.createCall] }
  | none =>
    match env.waitErr with
    | some e =>
        { st := st
          err := some (.wrap "Error waiting on create/update future for Cosmos Mongo Collection" e)
          evs := [.createCall, .start "cosmosCreateFuture", .wait "cosmosCreateFuture"] }
    | none =>
      match env.getAfter.err with
      | some e =>
          { st := st
            err := some (.wrap "Error making get request for Cosmos Mongo Collection" e)
            evs := [.createCall, .start "cosmosCreateFuture", .wait "cosmosCreateFuture"] }
      | none =>
        match env.afterIdResult with
        | .error e =>
            { st := st
              err := some (.wrap "Error getting ID for Cosmos Mongo Collection" e)
              evs := [.createCall, .start "cosmosCreateFuture", .wait "cosmosCreateFuture"] }
        | .ok i =>
          let st := dSetId st i
          let r := resourceArmCosmosDbMongoCollectionRead env.readEnv st
          { st := r.1, err := r.2
            evs := [.createCall, .start "cosmosCreateFuture", .wait "cosmosCreateFuture",
              .setId i] }

/-- `resourceArmCosmosDbMongoCollectionCreate` (lines 128-202).  The
existence check is guarded by the feature flag only; a successful
existence `Get` always diverts into the import-as-exists path, extracting
the import ID via `azure.CosmosGetIDFromResponse` (an oracle here). -/
def resourceArmCosmosDbMongoCollectionCreate (env : CosmosCreateEnv) (st : TFState) : HR :=
  if shouldResourcesBeImported then
    match env.getExisting.err with
    | some e =>
      if !env.getExisting.notFound then
        { st := st
          err := some (.wrap "Error checking for presence of creating Cosmos Mongo Collection" e)
          evs := [] }
      else cosmosCreateCore env st
    | none =>
      match env.importIdResult with
      | .error _ =>
          { st := st, err := some (.msg "Error generating import ID for Cosmos Mongo Collection")
            evs := [] }
      | .ok i =>
          { st := st, err := some (.importAsExists "azurerm_cosmosdb_mongo_collection" i)
            evs := [] }
  else cosmosCreateCore env st

structure CosmosUpdateEnv where
  parseId : String → Except Err CosmosId
  createErr : Option Err
  waitErr : Option Err
  hasChangeThroughput : Bool
  throughputUpdateErr : Option Err
  throughputNotFound : Bool
  throughputWaitErr : Option Err
  readEnv : CosmosReadEnv

/-- The wait on the throughput-update future in
`resourceArmCosmosDbMongoCollectionUpdate` (lines 261-263), followed by
the Read handler.  `evs` already contains the wait event. -/
def cosmosUpdateAfterThroughputWait (evs : List Ev) (env : CosmosUpdateEnv) (st : TFState) : HR :=
  match env.throughputWaitErr with
  | some e =>
      { st := st
        err := some (.wrap "Error waiting on ThroughputUpdate future for Cosmos Mongo Collection" e)
        evs := evs }
  | none =>
    let r := resourceArmCosmosDbMongoCollectionRead env.readEnv st
    { st := r.1, err := r.2, evs := evs }

/-- `resourceArmCosmosDbMongoCollectionUpdate` (lines 204-267).  Note the
source's error handling for the throughput update: an update error only
returns early when it is a not-found response; otherwise the code falls
through to `WaitForCompletionRef`. -/
def resourceArmCosmosDbMongoCollectionUpdate (env : CosmosUpdateEnv) (st : TFState) : HR :=
  match env.parseId st.id with
  | .error e => { st := st, err := some e, evs := [] }
  | .ok id =>
    let _params := cosmosBuildParams st id.collection none
    match env.createErr with
    | some e =>
        { st := st
          err := some (.wrap "Error issuing create/update request for Cosmos Mongo Collection" e)
          evs := [] }
    | none =>
      match env.waitErr with
      | some e =>
          { st := st
            err := some (.wrap "Error waiting on create/update future for Cosmos Mongo Collection" e)
            evs := [.start "cosmosUpdateFuture", .wait "cosmosUpdateFuture"] }
      | none =>
        let evs := [.start "cosmosUpdateFuture", .wait "cosmosUpdateFuture"]
        if env.hasChangeThroughput then
          match env.throughputUpdateErr with
          | some e =>
            if env.throughputNotFound then
              { st := st
                err := some (.wrap "Error setting Throughput for Cosmos MongoDB Collection" e)
                evs := evs }
            else
              cosmosUpdateAfterThroughputWait (evs ++ [.wait "cosmosThroughputFuture"]) env st
          | none =>
              cosmosUpdateAfterThroughputWait
                (evs ++ [.start "cosmosThroughputFuture", .wait "cosmosThroughputFuture"]) env st
        else
          let r := resourceArmCosmosDbMongoCollectionRead env.readEnv st
          { st := r.1, err := r.2, evs := evs }

structure CosmosDeleteEnv where
  parseId : String → Except Err CosmosId
  deleteErr : Option Err
  deleteNotFound : Bool
  waitErr : Option Err

/-- `resourceArmCosmosDbMongoCollectionDelete` (lines 331-354): a delete
error only fails when it is not a not-found response; in either case the
handler then waits on the delete future. -/
def resourceArmCosmosDbMongoCollectionDelete (env : CosmosDeleteEnv) (st : TFState) : HR :=
  match env.parseId st.id with
  | .error e => { st := st, err := some e, evs := [] }
  | .ok _ =>
    match env.deleteErr with
    | some e =>
      if !env.deleteNotFound then
        { st := st, err := some (.wrap "Error deleting Cosmos Mongo Collection" e), evs := [] }
      else
        match env.waitErr with
        | some e2 =>
            { st := st
              err := some (.wrap "Error waiting on delete future for Cosmos Mongo Collection" e2)
              evs := [.wait "cosmosDeleteFuture"] }
        | none => { st := st, err := none, evs := [.wait "cosmosDeleteFuture"] }
    | none =>
      match env.waitErr with
      | some e2 =>
          { st := st
            err := some (.wrap "Error waiting on delete future for Cosmos Mongo Collection" e2)
            evs := [.start "cosmosDeleteFuture", .wait "cosmosDeleteFuture"] }
      | none =>
          { st := st, err := none
            evs := [.start "cosmosDeleteFuture", .wait "cosmosDeleteFuture"] }

/-! ### Resource-ID parsing helpers (claim C9) -/

/-- `azure.ResourceID` as used by the two parsers: the resource group and
the remaining key/value path segments.  Modelled from the spec: the spec
lists the ID parsing helpers as external collaborators, so only the
fields and operations these two functions use are modelled. -/
structure ResourceID where
  resourceGroup : String
  path : List (String × String)
  deriving DecidableEq, Repr

/-- Modelled from the spec: `ResourceID.PopSegment(key)` returns the
value stored under `key` and removes that segment, or errors when the
segment is absent. -/
def popSegment (rid : ResourceID) (key : String) : Except Err (String × ResourceID) :=
  match rid.path.lookup key with
  | none => .error (.msg ("ID was missing the " ++ key ++ " element"))
  | some v => .ok (v, { rid with path := rid.path.filter (fun p => p.1 ≠ key) })

/-- Modelled from the spec: `ResourceID.ValidateNoEmptySegments(input)`
errors when any remaining path segment key or value is empty. -/
def validateNoEmptySegments (rid : ResourceID) (input : String) : Except Err Unit :=
  if rid.path.any (fun p => p.1 = "" || p.2 = "") then
    .error (.msg ("ID contained empty segments: " ++ input))
  else .ok ()

/-- `parse.LogAnalyticsWorkspaceId`. -/
structure LogAnalyticsWorkspaceId where
  resourceGroup : String
  name : String
  deriving DecidableEq, Repr

/-- `LogAnalyticsWorkspaceID` (`log_analytics_workspace.go`, lines 14-33),
parameterised by the external `azure.ParseAzureResourceID`.  The Go pair
`(*LogAnalyticsWorkspaceId, error)` is kept as an `Option × Option` pair
so that "both nil" remains expressible. -/
def logAnalyticsWorkspaceID (parseResource : String → Except Err ResourceID)
    (input : String) : Option LogAnalyticsWorkspaceId × Option Err :=
  match parseResource input with
  | .error e => (none, some (.wrap "parsing Log Analytics Workspace ID" e))
  | .ok id =>
    match popSegment id "workspaces" with
    | .error e => (none, some e)
    | .ok (name, id') =>
      match validateNoEmptySegments id' input with
      | .error e => (none, some e)
      | .ok _ => (some { resourceGroup := id.resourceGroup, name := name }, none)

/-- `parse.NamespaceAuthorizationRuleId` (`part_002`). -/
structure NamespaceAuthorizationRuleId where
  resourceGroup : String
  namespaceName : String
  name : String
  deriving DecidableEq, Repr

/-- `NamespaceAuthorizationRuleID` (`part_002`, lines 11-34). -/
def namespaceAuthorizationRuleID (parseResource : String → Except Err ResourceID)
    (input : String) : Option NamespaceAuthorizationRuleId × Option Err :=
  match parseResource input with
  | .error e => (none, some e)
  | .ok id =>
    match popSegment id "namespaces" with
    | .error e => (none, some e)
    | .ok (namespaceName, id') =>
      match popSegment id' "AuthorizationRules" with
      | .error e => (none, some e)
      | .ok (name, id'') =>
        match validateNoEmptySegments id'' input with
        | .error e => (none, some e)
        | .ok _ =>
            (some { resourceGroup := id.resourceGroup, namespaceName := namespaceName
                    name := name }, none)

/-! ### Concrete instances used to exercise the theorems -/

def errW : Err := .msg "boom"

def stEmptyW : TFState := { id := "", attrs := [] }

def stIdW : TFState := { id := "someid", attrs := [] }

def egIdW : EGId := { resourceGroup := "rg1", domain := "dom1", name := "top1" }

def parseEGOkW : String → Except Err EGId := fun _ => .ok egIdW

def parseEGFailW : String → Except Err EGId := fun _ => .error (.msg "parse failed")

def egReadNotFoundW : EGReadEnv :=
  { parseId := parseEGOkW, get := { err := some errW, notFound := true, val := ⟨none, none⟩ } }

def scIdW : SCId := { resourceGroup := "rg1", serviceName := "svc1", name := "app1" }

def parseSCOkW : String → Except Err SCId := fun _ => .ok scIdW

def scReadNotFoundW : SCReadEnv :=
  { parseId := parseSCOkW, get := { err := some errW, notFound := true, val := ⟨none, none⟩ } }

def dsIdW : DSId := { resourceGroup := "rg1", accountName := "acc1", name := "share1" }

def parseDSOkW : String → Except Err DSId := fun _ => .ok dsIdW

def dsAccountIdW : DSAccountId := { resourceGroup := "rg1", name := "acc1" }

def parseDSAccountOkW : String → Except Err DSAccountId := fun _ => .ok dsAccountIdW

def syncSettingW : ScheduledSyncSetting :=
  { name := none, id := none, recurrenceInterval := "", synchronizationTime := none }

def dsReadNotFoundW : DSReadEnv :=
  { parseId := parseDSOkW
    get := { err := some errW, notFound := true, val := ⟨none, none⟩ }
    accountGetErr := none, accountGetId := none
    listErr := none, listNotDone := false, listValueName := none
    syncGetErr := none, syncGetValue := syncSettingW
    setSnapErr := none, nextErr := none, listNotDoneAfterNext := false }

def dsReadOkW : DSReadEnv :=
  { parseId := parseDSOkW
    get := { err := none, notFound := false, val := ⟨some "shareid", none⟩ }
    accountGetErr := none, accountGetId := some "accid"
    listErr := none, listNotDone := false, listValueName := none
    syncGetErr := none, syncGetValue := syncSettingW
    setSnapErr := none, nextErr := none, listNotDoneAfterNext := false }

def cosmosIdW : CosmosId :=
  { resourceGroup := "rg1", account := "acc1", database := "db1", collection := "coll1" }

def parseCosmosOkW : String → Except Err CosmosId := fun _ => .ok cosmosIdW

def cosmosReadNotFoundW : CosmosReadEnv :=
  { parseId := parseCosmosOkW
    get := { err := some errW, notFound := true, val := ⟨none⟩ }
    setTtlErr := none, setIndexErr := none, setSysErr := none
    throughputGet := { err := none, notFound := false, throughput := some 400 } }

/-- A Cosmos read environment whose collection has three shard keys. -/
def cosmosReadThreeKeysW : CosmosReadEnv :=
  { parseId := parseCosmosOkW
    get := { err := none, notFound := false
             val := ⟨some { id := some "coll1"
                            shardKey := [("k1", "Hash"), ("k2", "Hash"), ("k3", "Hash")]
                            indexes := none }⟩ }
    setTtlErr := none, setIndexErr := none, setSysErr := none
    throughputGet := { err := none, notFound := false, throughput := some 400 } }

/-- A Cosmos read environment whose collection has one shard key. -/
def cosmosReadOneKeyW : CosmosReadEnv :=
  { parseId := parseCosmosOkW
    get := { err := none, notFound := false
             val := ⟨some { id := some "coll1", shardKey := [("k1", "Hash")], indexes := none }⟩ }
    setTtlErr := none, setIndexErr := none, setSysErr := none
    throughputGet := { err := none, notFound := false, throughput := some 400 } }

/-- EventGrid create environment in which the re-read returns a pointer
to the empty string as the ID. -/
def egCreateEmptyIdW : EGCreateEnv :=
  { isNew := true
    getExisting := { err := some errW, notFound := true, val := ⟨none, none⟩ }
    createErr := none, waitErr := none
    getAfter := { err := none, notFound := false, val := ⟨some "", some "top1"⟩ }
    readEnv := { parseId := parseEGFailW
                 get := { err := none, notFound := false, val := ⟨none, none⟩ } } }

/-- EventGrid create environment in which the re-read returns a proper ID. -/
def egCreateGoodIdW : EGCreateEnv :=
  { isNew := true
    getExisting := { err := some errW, notFound := true, val := ⟨none, none⟩ }
    createErr := none, waitErr := none
    getAfter := { err := none, notFound := false, val := ⟨some "topicid", some "top1"⟩ }
    readEnv := { parseId := parseEGOkW
                 get := { err := none, notFound := false, val := ⟨some "topicid", some "top1"⟩ } } }

/-- Spring Cloud App create environment in which the re-read returns a
nil ID. -/
def scCreateNilIdW : SCCreateEnv :=
  { getExisting := { err := some errW, notFound := true, val := ⟨none, none⟩ }
    createErr := none, waitErr := none
    getAfter := { err := none, notFound := false, val := ⟨none, some "app1"⟩ }
    readEnv := { parseId := parseSCOkW
                 get := { err := none, notFound := false, val := ⟨some "appid", some "app1"⟩ } } }

/-- Spring Cloud App create environment in which an existing app with a
non-empty ID is found. -/
def scCreateExistsW : SCCreateEnv :=
  { getExisting := { err := none, notFound := false, val := ⟨some "existingid", some "app1"⟩ }
    createErr := none, waitErr := none
    getAfter := { err := none, notFound := false, val := ⟨some "appid", some "app1"⟩ }
    readEnv := { parseId := parseSCOkW
                 get := { err := none, notFound := false, val := ⟨some "appid", some "app1"⟩ } } }

/-- DataShare create environment in which the re-read returns a nil ID. -/
def dsCreateNilIdW : DSCreateEnv :=
  { parseAccount := parseDSAccountOkW
    isNew := true
    getExisting := { err := some errW, notFound := true, val := ⟨none, none⟩ }
    createErr := none
    getAfter := { err := none, notFound := false, val := ⟨none, none⟩ }
    hasChangeSnapshot := false, snapshotOld := []
    syncDeleteErr := none, syncWaitErr := none, syncCreateErr := none
    readEnv := dsReadOkW }

/-- EventGrid delete environment in which everything succeeds. -/
def egDeleteOkW : EGDeleteEnv :=
  { parseId := parseEGOkW
    deleteErr := none, deleteNotFound := false
    waitErr := none, waitNotFound := false }

/-- DataShare delete environment in which everything succeeds. -/
def dsDeleteOkW : DSDeleteEnv :=
  { parseId := parseDSOkW
    syncDeleteErr := none, syncWaitErr := none
    deleteErr := none, waitErr := none }

/-- VaultsClient operation environment whose Preparer fails. -/
def vaultsPrepFailW : VaultsOpEnv Vault :=
  { prepare := .error errW, send := .ok (), respond := .ok ⟨some "vid", some "v"⟩ }

/-- Two pages of vaults: the first links to the second, the second is the
last. -/
def vaultPage1W : VaultList :=
  { values := [⟨some "v1", some "vault1"⟩], nextLink := some "https://next/page2" }

def vaultPage2W : VaultList :=
  { values := [⟨some "v2", some "vault2"⟩, ⟨some "v3", some "vault3"⟩], nextLink := none }

def vaultsListEnvW : VaultsListEnv :=
  { send := fun _ => { sendErr := none, respondErr := none, page := vaultPage2W } }

/-- Resource-ID parser oracle for the Log Analytics workspace witness. -/
def parseLAWw : String → Except Err ResourceID :=
  fun _ => .ok { resourceGroup := "rg1", path := [("workspaces", "ws1")] }

/-- Resource-ID parser oracle for the namespace authorization rule
witness. -/
def parseNARw : String → Except Err ResourceID :=
  fun _ => .ok { resourceGroup := "rg1", path := [("namespaces", "ns1"), ("AuthorizationRules", "ar1")] }

/-! ## Theorems -/

/-- Claim C1: for every resource Read handler (DataShare, Cosmos Mongo
Collection, Spring Cloud App, EventGrid Domain Topic), if the initial Get
call fails and the response is classified as not found, the handler sets
the resource ID to the empty string and returns nil; if the Get call
fails for any other reason, the handler returns a non-nil error and
leaves the state (in particular the ID) unchanged. -/
theorem read_handlers_not_found_clears_id :
    (∀ (env : EGReadEnv) (st : TFState) (pid : EGId) (e : Err),
      env.parseId st.id = .ok pid → env.get.err = some e →
      (env.get.notFound = true →
        resourceArmEventGridDomainTopicRead env st = (dSetId st "", none)) ∧
      (env.get.notFound = false →
        resourceArmEventGridDomainTopicRead env st =
          (st, some (.wrap "Error making Read request on EventGrid Domain Topic" e)))) ∧
    (∀ (env : SCReadEnv) (st : TFState) (pid : SCId) (e : Err),
      env.parseId st.id = .ok pid → env.get.err = some e →
      (env.get.notFound = true →
        resourceArmSpringCloudAppRead env st = (dSetId st "", none)) ∧
      (env.get.notFound = false →
        resourceArmSpringCloudAppRead env st =
          (st, some (.wrap "reading Spring Cloud App" e)))) ∧
    (∀ (env : DSReadEnv) (st : TFState) (pid : DSId) (e : Err),
      env.parseId st.id = .ok pid → env.get.err = some e →
      (env.get.notFound = true →
        resourceArmDataShareRead env st = (dSetId st "", none)) ∧
      (env.get.notFound = false →
        resourceArmDataShareRead env st = (st, some (.wrap "retrieving DataShare" e)))) ∧
    (∀ (env : CosmosReadEnv) (st : TFState) (pid : CosmosId) (e : Err),
      env.parseId st.id = .ok pid → env.get.err = some e →
      (env.get.notFound = true →
        resourceArmCosmosDbMongoCollectionRead env st = (dSetId st "", none)) ∧
      (env.get.notFound = false →
        resourceArmCosmosDbMongoCollectionRead env st =
          (st, some (.wrap "Error reading Cosmos Mongo Collection" e)))) := by
  refine ⟨?_, ?_, ?_, ?_⟩ <;>
    · intro env st pid e hp hg
      constructor <;> intro hnf <;>
        simp [resourceArmEventGridDomainTopicRead, resourceArmSpringCloudAppRead,
          resourceArmDataShareRead, resourceArmCosmosDbMongoCollectionRead, hp, hg, hnf]

/-- Witness for C1: the four Read handlers evaluated on concrete
environments whose Get fails with a not-found response. -/
theorem read_handlers_not_found_clears_id_witness :
    resourceArmEventGridDomainTopicRead egReadNotFoundW stIdW = (dSetId stIdW "", none) ∧
    resourceArmSpringCloudAppRead scReadNotFoundW stIdW = (dSetId stIdW "", none) ∧
    resourceArmDataShareRead dsReadNotFoundW stIdW = (dSetId stIdW "", none) ∧
    resourceArmCosmosDbMongoCollectionRead cosmosReadNotFoundW stIdW = (dSetId stIdW "", none) :=
  ⟨(read_handlers_not_found_clears_id.1 egReadNotFoundW stIdW egIdW errW rfl rfl).1 rfl,
   ((read_handlers_not_found_clears_id.2.1) scReadNotFoundW stIdW scIdW errW rfl rfl).1 rfl,
   ((read_handlers_not_found_clears_id.2.2.1) dsReadNotFoundW stIdW dsIdW errW rfl rfl).1 rfl,
   ((read_handlers_not_found_clears_id.2.2.2) cosmosReadNotFoundW stIdW cosmosIdW errW rfl rfl).1
     rfl⟩

/-- Claim C2: every Create/Update/Delete handler that starts a
long-running (future-returning) operation waits on that future before
returning success: whenever a handler returns nil, no future it started
is still pending. -/
theorem lro_futures_waited_before_success :
    (∀ (env : EGCreateEnv) (st : TFState),
      (resourceArmEventGridDomainTopicCreate env st).err = none →
      pendingFutures (resourceArmEventGridDomainTopicCreate env st).evs = []) ∧
    (∀ (env : EGDeleteEnv) (st : TFState),
      (resourceArmEventGridDomainTopicDelete env st).err = none →
      pendingFutures (resourceArmEventGridDomainTopicDelete env st).evs = []) ∧
    (∀ (env : SCCreateEnv) (st : TFState),
      (resourceArmSpringCloudAppCreate env st).err = none →
      pendingFutures (resourceArmSpringCloudAppCreate env st).evs = []) ∧
    (∀ (env : SCDeleteEnv) (st : TFState),
      (resourceArmSpringCloudAppDelete env st).err = none →
      pendingFutures (resourceArmSpringCloudAppDelete env st).evs = []) ∧
    (∀ (env : DSCreateEnv) (st : TFState),
      (resourceArmDataShareCreateUpdate env st).err = none →
      pendingFutures (resourceArmDataShareCreateUpdate env st).evs = []) ∧
    (∀ (env : DSDeleteEnv) (st : TFState),
      (resourceArmDataShareDelete env st).err = none →
      pendingFutures (resourceArmDataShareDelete env st).evs = []) ∧
    (∀ (env : CosmosCreateEnv) (st : TFState),
      (resourceArmCosmosDbMongoCollectionCreate env st).err = none →
      pendingFutures (resourceArmCosmosDbMongoCollectionCreate env st).evs = []) ∧
    (∀ (env : CosmosUpdateEnv) (st : TFState),
      (resourceArmCosmosDbMongoCollectionUpdate env st).err = none →
      pendingFutures (resourceArmCosmosDbMongoCollectionUpdate env st).evs = []) ∧
    (∀ (env : CosmosDeleteEnv) (st : TFState),
      (resourceArmCosmosDbMongoCollectionDelete env st).err = none →
      pendingFutures (resourceArmCosmosDbMongoCollectionDelete env st).evs = []) := by
  refine ⟨?_, ?_, ?_, ?_, ?_, ?_, ?_, ?_, ?_⟩
  · intro env st _
    unfold resourceArmEventGridDomainTopicCreate egCreateIdCheck egCreateCore
    repeat' split
    all_goals rfl
  · intro env st _
    unfold resourceArmEventGridDomainTopicDelete
    repeat' split
    all_goals rfl
  · intro env st _
    unfold resourceArmSpringCloudAppCreate scCreateCore
    repeat' split
    all_goals rfl
  · intro env st _
    unfold resourceArmSpringCloudAppDelete
    repeat' split
    all_goals rfl
  · intro env st _
    unfold resourceArmDataShareCreateUpdate dsCreateIdCheck dsCreateCore dsCreateSnapshot
      dsCreateSync
    repeat' split
    all_goals rfl
  · intro env st _
    unfold resourceArmDataShareDelete dsDeleteShare
    repeat' split
    all_goals rfl
  · intro env st _
    unfold resourceArmCosmosDbMongoCollectionCreate cosmosCreateCore
    repeat' split
    all_goals rfl
  · intro env st _
    unfold resourceArmCosmosDbMongoCollectionUpdate cosmosUpdateAfterThroughputWait
    repeat' split
    all_goals rfl
  · intro env st _
    unfold resourceArmCosmosDbMongoCollectionDelete
    repeat' split
    all_goals rfl

/-- Witness for C2: the EventGrid Domain Topic and DataShare delete
handlers on concrete all-success environments return nil and leave no
pending future. -/
theorem lro_futures_waited_before_success_witness :
    pendingFutures (resourceArmEventGridDomainTopicDelete egDeleteOkW stIdW).evs = [] ∧
    pendingFutures (resourceArmDataShareDelete dsDeleteOkW stIdW).evs = [] :=
  ⟨lro_futures_waited_before_success.2.1 egDeleteOkW stIdW rfl,
   lro_futures_waited_before_success.2.2.2.2.2.1 dsDeleteOkW stIdW rfl⟩

theorem dsCreateSync_evs_subset (evs : List Ev) (env : DSCreateEnv) (st : TFState) :
    ∀ x ∈ evs, x ∈ (dsCreateSync evs env st).evs := by
  intro x hx
  unfold dsCreateSync
  repeat' split
  all_goals exact hx

theorem dsCreateSnapshot_evs_subset (evs : List Ev) (env : DSCreateEnv) (st : TFState) :
    ∀ x ∈ evs, x ∈ (dsCreateSnapshot evs env st).evs := by
  intro x hx
  unfold dsCreateSnapshot
  repeat' split
  all_goals
    first
      | exact hx
      | exact List.mem_append_left _ hx
      | exact dsCreateSync_evs_subset _ _ _ x hx
      | exact dsCreateSync_evs_subset _ _ _ x (List.mem_append_left _ hx)

/-- Counterexample to C3 as stated: in the EventGrid Domain Topic create
handler, when the post-create Get succeeds and returns a pointer to the
empty string as the ID, the handler does NOT return the claimed error
without setting the ID — it calls `d.SetId("")`, storing the empty ID. -/
theorem create_empty_id_counterexample :
    egCreateEmptyIdW.getAfter.err = none ∧
    egCreateEmptyIdW.getAfter.val.id = some "" ∧
    Ev.setId "" ∈ (resourceArmEventGridDomainTopicCreate egCreateEmptyIdW stEmptyW).evs ∧
    (resourceArmEventGridDomainTopicCreate egCreateEmptyIdW stEmptyW).st.id = "" := by
  refine ⟨rfl, rfl, ?_, ?_⟩ <;> decide

/-- Claim C3 (amended): after the create call succeeds, each create
handler re-reads the resource and stores the service-returned ID via
`d.SetId`.  The DataShare and Spring Cloud App handlers return a non-nil
error without setting the ID when the service-returned ID is nil or
empty; the EventGrid Domain Topic handler does so only when the ID is
nil, and stores whatever string (including the empty string) the service
returns otherwise. -/
theorem create_sets_service_returned_id :
    (∀ (env : DSCreateEnv) (st : TFState) (aid : DSAccountId) (e : Err),
      env.parseAccount (dGetStr st "account_id") = .ok aid →
      env.isNew = true → env.getExisting.err = some e → env.getExisting.notFound = true →
      env.getExisting.val.id = none → env.createErr = none → env.getAfter.err = none →
      ((env.getAfter.val.id = none ∨ env.getAfter.val.id = some "" →
          (resourceArmDataShareCreateUpdate env st).err =
            some (.msg "reading DataShare: ID is empty") ∧
          ∀ s, Ev.setId s ∉ (resourceArmDataShareCreateUpdate env st).evs) ∧
        (∀ s, env.getAfter.val.id = some s → s ≠ "" →
          Ev.setId s ∈ (resourceArmDataShareCreateUpdate env st).evs))) ∧
    (∀ (env : SCCreateEnv) (st : TFState) (e : Err),
      env.getExisting.err = some e → env.getExisting.notFound = true →
      env.getExisting.val.id = none →
      env.createErr = none → env.waitErr = none → env.getAfter.err = none →
      ((env.getAfter.val.id = none ∨ env.getAfter.val.id = some "" →
          (resourceArmSpringCloudAppCreate env st).err = some (.msg "read Spring Cloud App ID") ∧
          ∀ s, Ev.setId s ∉ (resourceArmSpringCloudAppCreate env st).evs) ∧
        (∀ s, env.getAfter.val.id = some s → s ≠ "" →
          Ev.setId s ∈ (resourceArmSpringCloudAppCreate env st).evs))) ∧
    (∀ (env : EGCreateEnv) (st : TFState) (e : Err),
      env.isNew = true → env.getExisting.err = some e → env.getExisting.notFound = true →
      env.getExisting.val.id = none →
      env.createErr = none → env.waitErr = none → env.getAfter.err = none →
      ((env.getAfter.val.id = none →
          (resourceArmEventGridDomainTopicCreate env st).err =
            some (.msg "Cannot read EventGrid Domain Topic ID") ∧
          ∀ s, Ev.setId s ∉ (resourceArmEventGridDomainTopicCreate env st).evs) ∧
        (∀ s, env.getAfter.val.id = some s →
          Ev.setId s ∈ (resourceArmEventGridDomainTopicCreate env st).evs))) := by
  refine ⟨?_, ?_, ?_⟩
  · intro env st aid e hacc hnew hex hnf hexid hc ha
    constructor
    · intro hid
      rcases hid with hid | hid <;>
        simp [resourceArmDataShareCreateUpdate, dsCreateIdCheck, dsCreateCore,
          hacc, hnew, hex, hnf, hexid, hc, ha, hid]
    · intro s hid hs
      have h :
          resourceArmDataShareCreateUpdate env st =
            dsCreateSnapshot ([] ++ [.createCall, .setId s]) env (dSetId st s) := by
        simp [resourceArmDataShareCreateUpdate, dsCreateIdCheck, dsCreateCore,
          hacc, hnew, hex, hnf, hexid, hc, ha, hid, hs]
      rw [h]
      exact dsCreateSnapshot_evs_subset _ _ _ _ (by simp)
  · intro env st e hex hnf hexid hc hw ha
    constructor
    · intro hid
      rcases hid with hid | hid <;>
        simp [resourceArmSpringCloudAppCreate, scCreateCore,
          hex, hnf, hexid, hc, hw, ha, hid]
    · intro s hid hs
      simp [resourceArmSpringCloudAppCreate, scCreateCore,
        hex, hnf, hexid, hc, hw, ha, hid, hs]
  · intro env st e hnew hex hnf hexid hc hw ha
    constructor
    · intro hid
      simp [resourceArmEventGridDomainTopicCreate, egCreateIdCheck, egCreateCore,
        shouldResourcesBeImported, hnew, hex, hnf, hexid, hc, hw, ha, hid]
    · intro s hid
      simp [resourceArmEventGridDomainTopicCreate, egCreateIdCheck, egCreateCore,
        shouldResourcesBeImported, hnew, hex, hnf, hexid, hc, hw, ha, hid]

/-- Witness for C3 (amended): concrete create environments — DataShare
and Spring Cloud App reject a nil re-read ID without setting it, and
EventGrid stores a proper service-returned ID. -/
theorem create_sets_service_returned_id_witness :
    ((resourceArmDataShareCreateUpdate dsCreateNilIdW stEmptyW).err =
        some (.msg "reading DataShare: ID is empty") ∧
      ∀ s, Ev.setId s ∉ (resourceArmDataShareCreateUpdate dsCreateNilIdW stEmptyW).evs) ∧
    ((resourceArmSpringCloudAppCreate scCreateNilIdW stEmptyW).err =
        some (.msg "read Spring Cloud App ID") ∧
      ∀ s, Ev.setId s ∉ (resourceArmSpringCloudAppCreate scCreateNilIdW stEmptyW).evs) ∧
    Ev.setId "topicid" ∈ (resourceArmEventGridDomainTopicCreate egCreateGoodIdW stEmptyW).evs :=
  ⟨(create_sets_service_returned_id.1 dsCreateNilIdW stEmptyW dsAccountIdW errW rfl rfl rfl rfl
      rfl rfl rfl).1 (Or.inl rfl),
   (create_sets_service_returned_id.2.1 scCreateNilIdW stEmptyW errW rfl rfl rfl rfl rfl rfl).1
      (Or.inl rfl),
   (create_sets_service_returned_id.2.2 egCreateGoodIdW stEmptyW errW rfl rfl rfl rfl rfl rfl
      rfl).2 "topicid" rfl⟩

/-- Claim C4: every create handler, for a new resource, first checks for
an existing resource via a Get call before issuing the create API call: a
non-not-found error from that Get fails the handler (wrapping the error),
and a found resource (a non-empty existing ID; for Cosmos, a successful
existence Get with an extractable import ID) yields an import-as-exists
error — in both cases without issuing the create call (`Ev.createCall`
never appears in the event log). -/
theorem create_checks_existence_first :
    (∀ (env : DSCreateEnv) (st : TFState) (aid : DSAccountId),
      env.parseAccount (dGetStr st "account_id") = .ok aid → env.isNew = true →
      ((∀ e, env.getExisting.err = some e → env.getExisting.notFound = false →
          (resourceArmDataShareCreateUpdate env st).err =
            some (.wrap "checking for present of existing DataShare" e) ∧
          Ev.createCall ∉ (resourceArmDataShareCreateUpdate env st).evs) ∧
        (∀ s, (env.getExisting.err = none ∨ env.getExisting.notFound = true) →
          env.getExisting.val.id = some s → s ≠ "" →
          (resourceArmDataShareCreateUpdate env st).err =
            some (.importAsExists "azurerm_data_share" s) ∧
          Ev.createCall ∉ (resourceArmDataShareCreateUpdate env st).evs))) ∧
    (∀ (env : SCCreateEnv) (st : TFState),
      ((∀ e, env.getExisting.err = some e → env.getExisting.notFound = false →
          (resourceArmSpringCloudAppCreate env st).err =
            some (.wrap "checking for presence of existing Spring Cloud App" e) ∧
          Ev.createCall ∉ (resourceArmSpringCloudAppCreate env st).evs) ∧
        (∀ s, (env.getExisting.err = none ∨ env.getExisting.notFound = true) →
          env.getExisting.val.id = some s → s ≠ "" →
          (resourceArmSpringCloudAppCreate env st).err =
            some (.importAsExists "azurerm_spring_cloud_app" s) ∧
          Ev.createCall ∉ (resourceArmSpringCloudAppCreate env st).evs))) ∧
    (∀ (env : EGCreateEnv) (st : TFState),
      env.isNew = true →
      ((∀ e, env.getExisting.err = some e → env.getExisting.notFound = false →
          (resourceArmEventGridDomainTopicCreate env st).err =
            some (.wrap "Error checking for presence of existing EventGrid Domain Topic" e) ∧
          Ev.createCall ∉ (resourceArmEventGridDomainTopicCreate env st).evs) ∧
        (∀ s, (env.getExisting.err = none ∨ env.getExisting.notFound = true) →
          env.getExisting.val.id = some s → s ≠ "" →
          (resourceArmEventGridDomainTopicCreate env st).err =
            some (.importAsExists "azurerm_eventgrid_domain_topic" s) ∧
          Ev.createCall ∉ (resourceArmEventGridDomainTopicCreate env st).evs))) ∧
    (∀ (env : CosmosCreateEnv) (st : TFState),
      ((∀ e, env.getExisting.err = some e → env.getExisting.notFound = false →
          (resourceArmCosmosDbMongoCollectionCreate env st).err =
            some (.wrap "Error checking for presence of creating Cosmos Mongo Collection" e) ∧
          Ev.createCall ∉ (resourceArmCosmosDbMongoCollectionCreate env st).evs) ∧
        (∀ s, env.getExisting.err = none → env.importIdResult = .ok s →
          (resourceArmCosmosDbMongoCollectionCreate env st).err =
            some (.importAsExists "azurerm_cosmosdb_mongo_collection" s) ∧
          Ev.createCall ∉ (resourceArmCosmosDbMongoCollectionCreate env st).evs))) := by
  refine ⟨?_, ?_, ?_, ?_⟩
  · intro env st aid hacc hnew
    constructor
    · intro e he hnf
      simp [resourceArmDataShareCreateUpdate, hacc, hnew, he, hnf]
    · intro s hok hid hs
      rcases hok with hok | hok
      · simp [resourceArmDataShareCreateUpdate, dsCreateIdCheck, hacc, hnew, hok, hid, hs]
      · cases henv : env.getExisting.err <;>
          simp [resourceArmDataShareCreateUpdate, dsCreateIdCheck, hacc, hnew, hok, hid, hs, henv]
  · intro env st
    constructor
    · intro e he hnf
      simp [resourceArmSpringCloudAppCreate, he, hnf]
    · intro s hok hid hs
      rcases hok with hok | hok
      · simp [resourceArmSpringCloudAppCreate, hok, hid, hs]
      · cases henv : env.getExisting.err <;>
          simp [resourceArmSpringCloudAppCreate, hok, hid, hs, henv]
  · intro env st hnew
    constructor
    · intro e he hnf
      simp [resourceArmEventGridDomainTopicCreate, shouldResourcesBeImported, hnew, he, hnf]
    · intro s hok hid hs
      rcases hok with hok | hok
      · simp [resourceArmEventGridDomainTopicCreate, egCreateIdCheck,
          shouldResourcesBeImported, hnew, hok, hid, hs]
      · cases henv : env.getExisting.err <;>
          simp [resourceArmEventGridDomainTopicCreate, egCreateIdCheck,
            shouldResourcesBeImported, hnew, hok, hid, hs, henv]
  · intro env st
    constructor
    · intro e he hnf
      simp [resourceArmCosmosDbMongoCollectionCreate, shouldResourcesBeImported, he, hnf]
    · intro s hok himp
      simp [resourceArmCosmosDbMongoCollectionCreate, shouldResourcesBeImported, hok, himp]

/-- Witness for C4: the Spring Cloud App create handler on a concrete
environment in which an app with a non-empty ID already exists returns
the import-as-exists error and never issues the create call. -/
theorem create_checks_existence_first_witness :
    (resourceArmSpringCloudAppCreate scCreateExistsW stEmptyW).err =
      some (.importAsExists "azurerm_spring_cloud_app" "existingid") ∧
    Ev.createCall ∉ (resourceArmSpringCloudAppCreate scCreateExistsW stEmptyW).evs :=
  (create_checks_existence_first.2.1 scCreateExistsW stEmptyW).2 "existingid" (Or.inl rfl) rfl
    (by decide)

/-- Claim C5: every request preparer of the generated VaultsClient
includes the query parameter `api-version=2016-06-01`, and encodes the
parameters it takes (`resourceGroupName`, `subscriptionId`, `vaultName`;
the list preparers take no vault name, and `ListBySubscriptionID` no
resource group) as path-escaped path parameters of the ARM resource URL
template. -/
theorem vaults_preparers_api_version_and_path :
    ∀ (c : VaultsClient) (rg vn : String),
      ((createOrUpdatePreparer c rg vn).query = [("api-version", "2016-06-01")] ∧
        (createOrUpdatePreparer c rg vn).pathTemplate =
          "/subscriptions/\x7bsubscriptionId\x7d/resourceGroups/\x7bresourceGroupName\x7d/providers/Microsoft.RecoveryServices/vaults/\x7bvaultName\x7d" ∧
        (createOrUpdatePreparer c rg vn).pathParams =
          [("resourceGroupName", pathEscape rg), ("subscriptionId", pathEscape c.subscriptionID),
           ("vaultName", pathEscape vn)]) ∧
      ((deletePreparer c rg vn).query = [("api-version", "2016-06-01")] ∧
        (deletePreparer c rg vn).pathTemplate =
          "/subscriptions/\x7bsubscriptionId\x7d/resourceGroups/\x7bresourceGroupName\x7d/providers/Microsoft.RecoveryServices/vaults/\x7bvaultName\x7d" ∧
        (deletePreparer c rg vn).pathParams =
          [("resourceGroupName", pathEscape rg), ("subscriptionId", pathEscape c.subscriptionID),
           ("vaultName", pathEscape vn)]) ∧
      ((getPreparer c rg vn).query = [("api-version", "2016-06-01")] ∧
        (getPreparer c rg vn).pathTemplate =
          "/subscriptions/\x7bsubscriptionId\x7d/resourceGroups/\x7bresourceGroupName\x7d/providers/Microsoft.RecoveryServices/vaults/\x7bvaultName\x7d" ∧
        (getPreparer c rg vn).pathParams =
          [("resourceGroupName", pathEscape rg), ("subscriptionId", pathEscape c.subscriptionID),
           ("vaultName", pathEscape vn)]) ∧
      ((updatePreparer c rg vn).query = [("api-version", "2016-06-01")] ∧
        (updatePreparer c rg vn).pathTemplate =
          "/subscriptions/\x7bsubscriptionId\x7d/resourceGroups/\x7bresourceGroupName\x7d/providers/Microsoft.RecoveryServices/vaults/\x7bvaultName\x7d" ∧
        (updatePreparer c rg vn).pathParams =
          [("resourceGroupName", pathEscape rg), ("subscriptionId", pathEscape c.subscriptionID),
           ("vaultName", pathEscape vn)]) ∧
      ((listByResourceGroupPreparer c rg).query = [("api-version", "2016-06-01")] ∧
        (listByResourceGroupPreparer c rg).pathTemplate =
          "/subscriptions/\x7bsubscriptionId\x7d/resourceGroups/\x7bresourceGroupName\x7d/providers/Microsoft.RecoveryServices/vaults" ∧
        (listByResourceGroupPreparer c rg).pathParams =
          [("resourceGroupName", pathEscape rg),
           ("subscriptionId", pathEscape c.subscriptionID)]) ∧
      ((listBySubscriptionIDPreparer c).query = [("api-version", "2016-06-01")] ∧
        (listBySubscriptionIDPreparer c).pathTemplate =
          "/subscriptions/\x7bsubscriptionId\x7d/providers/Microsoft.RecoveryServices/vaults" ∧
        (listBySubscriptionIDPreparer c).pathParams =
          [("subscriptionId", pathEscape c.subscriptionID)]) := by
  intro c rg vn
  exact ⟨⟨rfl, rfl, rfl⟩, ⟨rfl, rfl, rfl⟩, ⟨rfl, rfl, rfl⟩, ⟨rfl, rfl, rfl⟩,
    ⟨rfl, rfl, rfl⟩, ⟨rfl, rfl, rfl⟩⟩

/-- Claim C7: in every VaultsClient operation (CreateOrUpdate, Delete,
Get, Update share the generated shape), a failure at the preparing,
sending or responding stage yields a non-nil error wrapped with the
client name, the operation name and a stage-identifying message, and the
operation stops at the first failing stage: a Prepare failure means the
Sender is never invoked, and a Send failure means the Responder is never
invoked. -/
theorem vaults_ops_wrap_and_stop_at_first_failure :
    (∀ (env : VaultsOpEnv Vault),
      (∀ e, env.prepare = .error e →
        vaultsCreateOrUpdate env =
          { val := none
            err := some (.autorestWrap "recoveryservices.VaultsClient" "CreateOrUpdate"
              "Failure preparing request" e)
            sent := false, responded := false }) ∧
      (∀ e, env.prepare = .ok () → env.send = .error e →
        vaultsCreateOrUpdate env =
          { val := none
            err := some (.autorestWrap "recoveryservices.VaultsClient" "CreateOrUpdate"
              "Failure sending request" e)
            sent := true, responded := false }) ∧
      (∀ e, env.prepare = .ok () → env.send = .ok () → env.respond = .error e →
        vaultsCreateOrUpdate env =
          { val := none
            err := some (.autorestWrap "recoveryservices.VaultsClient" "CreateOrUpdate"
              "Failure responding to request" e)
            sent := true, responded := true })) ∧
    (∀ (env : VaultsOpEnv Unit),
      (∀ e, env.prepare = .error e →
        vaultsDelete env =
          { val := none
            err := some (.autorestWrap "recoveryservices.VaultsClient" "Delete"
              "Failure preparing request" e)
            sent := false, responded := false }) ∧
      (∀ e, env.prepare = .ok () → env.send = .error e →
        vaultsDelete env =
          { val := none
            err := some (.autorestWrap "recoveryservices.VaultsClient" "Delete"
              "Failure sending request" e)
            sent := true, responded := false }) ∧
      (∀ e, env.prepare = .ok () → env.send = .ok () → env.respond = .error e →
        vaultsDelete env =
          { val := none
            err := some (.autorestWrap "recoveryservices.VaultsClient" "Delete"
              "Failure responding to request" e)
            sent := true, responded := true })) ∧
    (∀ (env : VaultsOpEnv Vault),
      (∀ e, env.prepare = .error e →
        vaultsGet env =
          { val := none
            err := some (.autorestWrap "recoveryservices.VaultsClient" "Get"
              "Failure preparing request" e)
            sent := false, responded := false }) ∧
      (∀ e, env.prepare = .ok () → env.send = .error e →
        vaultsGet env =
          { val := none
            err := some (.autorestWrap "recoveryservices.VaultsClient" "Get"
              "Failure sending request" e)
            sent := true, responded := false }) ∧
      (∀ e, env.prepare = .ok () → env.send = .ok () → env.respond = .error e →
        vaultsGet env =
          { val := none
            err := some (.autorestWrap "recoveryservices.VaultsClient" "Get"
              "Failure responding to request" e)
            sent := true, responded := true })) ∧
    (∀ (env : VaultsOpEnv Vault),
      (∀ e, env.prepare = .error e →
        vaultsUpdate env =
          { val := none
            err := some (.autorestWrap "recoveryservices.VaultsClient" "Update"
              "Failure preparing request" e)
            sent := false, responded := false }) ∧
      (∀ e, env.prepare = .ok () → env.send = .error e →
        vaultsUpdate env =
          { val := none
            err := some (.autorestWrap "recoveryservices.VaultsClient" "Update"
              "Failure sending request" e)
            sent := true, responded := false }) ∧
      (∀ e, env.prepare = .ok () → env.send = .ok () → env.respond = .error e →
        vaultsUpdate env =
          { val := none
            err := some (.autorestWrap "recoveryservices.VaultsClient" "Update"
              "Failure responding to request" e)
            sent := true, responded := true })) := by
  refine ⟨?_, ?_, ?_, ?_⟩ <;>
    · intro env
      refine ⟨?_, ?_, ?_⟩
      · intro e hp
        simp [vaultsCreateOrUpdate, vaultsDelete, vaultsGet, vaultsUpdate, hp]
      · intro e hp hs
        simp [vaultsCreateOrUpdate, vaultsDelete, vaultsGet, vaultsUpdate, hp, hs]
      · intro e hp hs hr
        simp [vaultsCreateOrUpdate, vaultsDelete, vaultsGet, vaultsUpdate, hp, hs, hr]

/-- Witness for C7: `CreateOrUpdate` on a concrete environment whose
Preparer fails returns the wrapped preparing-stage error without ever
invoking the Sender. -/
theorem vaults_ops_wrap_and_stop_at_first_failure_witness :
    vaultsCreateOrUpdate vaultsPrepFailW =
      { val := none
        err := some (.autorestWrap "recoveryservices.VaultsClient" "CreateOrUpdate"
          "Failure preparing request" errW)
        sent := false, responded := false } :=
  (vaults_ops_wrap_and_stop_at_first_failure.1 vaultsPrepFailW).1 errW rfl

/-- Claim C6: `listByResourceGroupNextResults` invokes the Sender only
when the previous page produces a non-nil next request; when the next
request is nil it returns an empty result with a nil error; and the
page enumeration behind `ListByResourceGroupComplete` visits every value
across every page of a properly linked chain and terminates with no
error once no next link remains. -/
theorem vaults_pagination_lazy_and_complete :
    (∀ (env : VaultsListEnv) (i : Nat) (last : VaultList),
      last.nextLink = none →
      listByResourceGroupNextResults env i last = ((emptyVaultList, none), (false, i))) ∧
    (∀ (env : VaultsListEnv) (i : Nat) (last : VaultList),
      (listByResourceGroupNextResults env i last).2.1 = true →
      ∃ r, vaultListPreparer last = .ok (some r)) ∧
    (∀ (env : VaultsListEnv) (chain : List VaultList) (p0 : VaultList) (i : Nat),
      p0.values ≠ [] → chainOK p0 chain → envSends env i chain →
      enumerateVaults env (chain.length + 1) i p0 =
        (p0.values ++ (chain.map VaultList.values).flatten, none)) := by
  refine ⟨?_, ?_, ?_⟩
  · intro env i last h
    simp [listByResourceGroupNextResults, vaultListPreparer, h]
  · intro env i last h
    rcases hp : vaultListPreparer last with e | o
    · simp [listByResourceGroupNextResults, hp] at h
    · rcases o with _ | r
      · simp [listByResourceGroupNextResults, hp] at h
      · exact ⟨r, rfl⟩
  · intro env chain
    induction chain with
    | nil =>
      intro p0 i hne hchain _
      simp only [chainOK] at hchain
      simp [enumerateVaults, listByResourceGroupNextResults, hchain, hne, emptyVaultList]
    | cons p rest ih =>
      intro p0 i hne hchain hsends
      obtain ⟨⟨r, hprep⟩, hpne, hrest⟩ := hchain
      obtain ⟨hsend, hsends'⟩ := hsends
      have hstep := ih p (i + 1) hpne hrest hsends'
      have hnr : listByResourceGroupNextResults env i p0 = ((p, none), (true, i + 1)) := by
        simp [listByResourceGroupNextResults, hprep, hsend]
      have hlen : (p :: rest).length + 1 = (rest.length + 1) + 1 := by simp
      rw [hlen, enumerateVaults, hnr]
      simp [hne, hpne, hstep]

/-- Witness for C6: a concrete two-page chain — the first page links to a
second, final page — enumerates both pages' vaults in order with no
error. -/
theorem vaults_pagination_lazy_and_complete_witness :
    enumerateVaults vaultsListEnvW ([vaultPage2W].length + 1) 0 vaultPage1W =
      (vaultPage1W.values ++ ([vaultPage2W].map VaultList.values).flatten, none) :=
  vaults_pagination_lazy_and_complete.2.2 vaultsListEnvW [vaultPage2W] vaultPage1W 0
    (by decide) ⟨⟨{ url := "https://next/page2" }, rfl⟩, by decide, rfl⟩
    ⟨rfl, trivial⟩

theorem toInt32_eq_of_range (t : Int) (h1 : -2 ^ 31 ≤ t) (h2 : t < 2 ^ 31) :
    toInt32 t = t := by
  unfold toInt32
  have e31 : (2 : Int) ^ 31 = 2147483648 := by norm_num
  have e32 : (2 : Int) ^ 32 = 4294967296 := by norm_num
  rw [e31, e32] at *
  rw [Int.emod_eq_of_lt (by omega) (by omega)]
  omega

theorem expandCosmos_eq_map_append (ixs : List MongoIndexMap) (t : Int) :
    expandCosmosMongoCollectionIndex ixs (some t) =
      ixs.map expandCosmosIndexEntry ++
        [{ key := some { keys := some ["_ts"] }
           options := some { unique := none, expireAfterSeconds := some (toInt32 t) } }] := by
  cases ixs <;> simp [expandCosmosMongoCollectionIndex]

theorem flatten_foldl_user_indexes (ixs : List MongoIndexMap)
    (h : ∀ ix ∈ ixs, ∃ k ks', ix.keys = k :: ks' ∧
      k ≠ "_id" ∧ k ≠ "DocumentDBDefaultIndex" ∧ k ≠ "_ts") :
    ∀ (u s : List MongoIndexMap) (tl : Option Int),
      (ixs.map expandCosmosIndexEntry).foldl flattenCosmosIndexStep (u, s, tl) =
        (u ++ ixs, s, tl) := by
  induction ixs with
  | nil => intro u s tl; simp
  | cons ix rest ih =>
    intro u s tl
    obtain ⟨k, ks', hk, h1, h2, h3⟩ := h ix (by simp)
    obtain ⟨keys, unique⟩ := ix
    simp only [MongoIndexMap.keys] at hk
    subst hk
    simp only [List.map_cons, List.foldl_cons]
    have hstep :
        flattenCosmosIndexStep (u, s, tl)
            (expandCosmosIndexEntry ⟨k :: ks', unique⟩) =
          (u ++ [⟨k :: ks', unique⟩], s, tl) := by
      simp [flattenCosmosIndexStep, expandCosmosIndexEntry, h1, h2, h3]
    rw [hstep]
    rw [ih (fun i hi => h i (List.mem_cons_of_mem _ hi))]
    simp

/-- Counterexample to C8 as stated: the round trip fails (a) for a user
index with an empty key set under a non-nil TTL — expand keeps it but
flatten drops it — and (b) for the TTL `2^31`, which the `int32`
conversion in expand wraps to `-2^31`. -/
theorem cosmos_index_round_trip_counterexample :
    flattenCosmosMongoCollectionIndex
        (some (expandCosmosMongoCollectionIndex [{ keys := [], unique := false }] (some 1))) ≠
      ([{ keys := ([] : List String), unique := false }], [], some 1) ∧
    flattenCosmosMongoCollectionIndex
        (some (expandCosmosMongoCollectionIndex [] (some (2 ^ 31)))) ≠
      ([], [], some ((2 : Int) ^ 31)) := by
  constructor <;> decide

/-- Claim C8 (amended): for every list of user index entries with
NON-EMPTY key sets whose first key is none of `_id`,
`DocumentDBDefaultIndex`, `_ts`, and every non-nil default TTL WITHIN
int32 range, flatten applied to the expansion returns the same user
indexes (keys and unique flags), an empty system-index list, and the same
TTL; the `_ts` entry expand appends is only turned back into the TTL,
never into a user or system index. -/
theorem cosmos_index_round_trip (ixs : List MongoIndexMap) (t : Int)
    (hkeys : ∀ ix ∈ ixs, ∃ k ks', ix.keys = k :: ks' ∧
      k ≠ "_id" ∧ k ≠ "DocumentDBDefaultIndex" ∧ k ≠ "_ts")
    (hlo : -2 ^ 31 ≤ t) (hhi : t < 2 ^ 31) :
    flattenCosmosMongoCollectionIndex
        (some (expandCosmosMongoCollectionIndex ixs (some t))) =
      (ixs, [], some t) := by
  rw [expandCosmos_eq_map_append]
  simp only [flattenCosmosMongoCollectionIndex]
  rw [List.foldl_append, flatten_foldl_user_indexes ixs hkeys [] [] none]
  simp [flattenCosmosIndexStep, toInt32_eq_of_range t hlo hhi]

/-- Witness for C8 (amended): a one-index configuration with key `"a"`
and TTL `5` round-trips exactly. -/
theorem cosmos_index_round_trip_witness :
    flattenCosmosMongoCollectionIndex
        (some (expandCosmosMongoCollectionIndex [{ keys := ["a"], unique := true }] (some 5))) =
      ([{ keys := ["a"], unique := true }], [], some 5) :=
  cosmos_index_round_trip [{ keys := ["a"], unique := true }] 5
    (by
      intro ix hix
      simp only [List.mem_singleton] at hix
      subst hix
      exact ⟨"a", [], rfl, by decide, by decide, by decide⟩)
    (by norm_num) (by norm_num)

/-- Claim C9: `LogAnalyticsWorkspaceID` and `NamespaceAuthorizationRuleID`
never return both a nil ID and a nil error; and whenever a non-nil ID is
returned, the input parsed successfully, each required segment
(`workspaces`; `namespaces` and `AuthorizationRules`) was popped, and the
no-empty-segments validation passed. -/
theorem id_parsers_never_both_nil :
    ∀ (parseResource : String → Except Err ResourceID) (input : String),
      (¬ ((logAnalyticsWorkspaceID parseResource input).1 = none ∧
          (logAnalyticsWorkspaceID parseResource input).2 = none)) ∧
      (¬ ((namespaceAuthorizationRuleID parseResource input).1 = none ∧
          (namespaceAuthorizationRuleID parseResource input).2 = none)) ∧
      (∀ w, (logAnalyticsWorkspaceID parseResource input).1 = some w →
        ∃ rid rest, parseResource input = .ok rid ∧
          popSegment rid "workspaces" = .ok (w.name, rest) ∧
          validateNoEmptySegments rest input = .ok () ∧
          w.resourceGroup = rid.resourceGroup) ∧
      (∀ w, (namespaceAuthorizationRuleID parseResource input).1 = some w →
        ∃ rid rest1 rest2, parseResource input = .ok rid ∧
          popSegment rid "namespaces" = .ok (w.namespaceName, rest1) ∧
          popSegment rest1 "AuthorizationRules" = .ok (w.name, rest2) ∧
          validateNoEmptySegments rest2 input = .ok () ∧
          w.resourceGroup = rid.resourceGroup) := by
  intro parseResource input
  refine ⟨?_, ?_, ?_, ?_⟩
  · rcases hp : parseResource input with e | rid
    · simp [logAnalyticsWorkspaceID, hp]
    · rcases hpop : popSegment rid "workspaces" with e | pr
      · simp [logAnalyticsWorkspaceID, hp, hpop]
      · obtain ⟨nm, rest⟩ := pr
        rcases hv : validateNoEmptySegments rest input with e | u
        · simp [logAnalyticsWorkspaceID, hp, hpop, hv]
        · simp [logAnalyticsWorkspaceID, hp, hpop, hv]
  · rcases hp : parseResource input with e | rid
    · simp [namespaceAuthorizationRuleID, hp]
    · rcases hpop : popSegment rid "namespaces" with e | pr
      · simp [namespaceAuthorizationRuleID, hp, hpop]
      · obtain ⟨nm, rest1⟩ := pr
        rcases hpop2 : popSegment rest1 "AuthorizationRules" with e | pr2
        · simp [namespaceAuthorizationRuleID, hp, hpop, hpop2]
        · obtain ⟨nm2, rest2⟩ := pr2
          rcases hv : validateNoEmptySegments rest2 input with e | u
          · simp [namespaceAuthorizationRuleID, hp, hpop, hpop2, hv]
          · simp [namespaceAuthorizationRuleID, hp, hpop, hpop2, hv]
  · intro w hw
    rcases hp : parseResource input with e | rid
    · simp [logAnalyticsWorkspaceID, hp] at hw
    · rcases hpop : popSegment rid "workspaces" with e | pr
      · simp [logAnalyticsWorkspaceID, hp, hpop] at hw
      · obtain ⟨nm, rest⟩ := pr
        rcases hv : validateNoEmptySegments rest input with e | u
        · simp [logAnalyticsWorkspaceID, hp, hpop, hv] at hw
        · simp [logAnalyticsWorkspaceID, hp, hpop, hv] at hw
          subst hw
          exact ⟨rid, rest, rfl, hpop, by cases u; exact hv, rfl⟩
  · intro w hw
    rcases hp : parseResource input with e | rid
    · simp [namespaceAuthorizationRuleID, hp] at hw
    · rcases hpop : popSegment rid "namespaces" with e | pr
      · simp [namespaceAuthorizationRuleID, hp, hpop] at hw
      · obtain ⟨nm, rest1⟩ := pr
        rcases hpop2 : popSegment rest1 "AuthorizationRules" with e | pr2
        · simp [namespaceAuthorizationRuleID, hp, hpop, hpop2] at hw
        · obtain ⟨nm2, rest2⟩ := pr2
          rcases hv : validateNoEmptySegments rest2 input with e | u
          · simp [namespaceAuthorizationRuleID, hp, hpop, hpop2, hv] at hw
          · simp [namespaceAuthorizationRuleID, hp, hpop, hpop2, hv] at hw
            subst hw
            exact ⟨rid, rest1, rest2, rfl, hpop, hpop2, by cases u; exact hv, rfl⟩

/-- Witness for C9: the two parsers on concrete parse oracles and input,
with the required segments present. -/
theorem id_parsers_never_both_nil_witness :
    (∃ rid rest, parseLAWw "x" = .ok rid ∧
      popSegment rid "workspaces" = .ok (("ws1" : String), rest) ∧
      validateNoEmptySegments rest "x" = .ok () ∧
      ("rg1" : String) = rid.resourceGroup) ∧
    (∃ rid rest1 rest2, parseNARw "x" = .ok rid ∧
      popSegment rid "namespaces" = .ok (("ns1" : String), rest1) ∧
      popSegment rest1 "AuthorizationRules" = .ok (("ar1" : String), rest2) ∧
      validateNoEmptySegments rest2 "x" = .ok () ∧
      ("rg1" : String) = rid.resourceGroup) :=
  ⟨(id_parsers_never_both_nil parseLAWw "x").2.2.1
      { resourceGroup := "rg1", name := "ws1" } (by decide),
   (id_parsers_never_both_nil parseNARw "x").2.2.2
      { resourceGroup := "rg1", namespaceName := "ns1", name := "ar1" } (by decide)⟩

/-- Claim C10: in the Cosmos Mongo Collection Read handler, when the
response carries collection properties, the handler returns the
shard-key-count error exactly when the `ShardKey` map has strictly more
than two entries; with one or two entries no such error is returned and
the `shard_key` attribute is set to a key of that map. -/
theorem cosmos_read_shard_key_check :
    ∀ (env : CosmosReadEnv) (st : TFState) (cid : CosmosId) (props : CosmosProps),
      env.parseId st.id = .ok cid → env.get.err = none → env.get.val.props = some props →
      ((props.shardKey.length > 2 →
        (resourceArmCosmosDbMongoCollectionRead env st).2 =
          some (.shardKeys props.shardKey.length)) ∧
       (∀ n, (resourceArmCosmosDbMongoCollectionRead env st).2 = some (.shardKeys n) →
        props.shardKey.length > 2 ∧ n = props.shardKey.length) ∧
       (props.shardKey.length = 1 ∨ props.shardKey.length = 2 →
        ∃ k, k ∈ props.shardKey.map Prod.fst ∧
          attrLookup (resourceArmCosmosDbMongoCollectionRead env st).1 "shard_key" =
            some (.str k))) := by
  intro env st cid props hp hg hpp
  have hred :
      resourceArmCosmosDbMongoCollectionRead env st =
        cosmosReadProps env
          (dSet (dSet (dSet st "resource_group_name" (.str cid.resourceGroup))
            "account_name" (.str cid.account)) "database_name" (.str cid.database)) := by
    simp [resourceArmCosmosDbMongoCollectionRead, hp, hg]
  refine ⟨?_, ?_, ?_⟩
  · intro hlen
    simp [hred, cosmosReadProps, hpp, hlen]
  · intro n hn
    rw [hred] at hn
    simp only [cosmosReadProps, hpp] at hn
    by_cases hlen : props.shardKey.length > 2
    · simp [hlen] at hn
      exact ⟨hlen, hn.symm⟩
    · simp only [hlen, if_false] at hn
      unfold cosmosReadThroughput at hn
      repeat' split at hn
      all_goals simp_all
  · intro hlen12
    rw [hred]
    simp only [cosmosReadProps, hpp]
    rcases hlen12 with h1 | h2
    · obtain ⟨a, ha⟩ := List.length_eq_one.mp h1
      refine ⟨a.1, by simp [ha], ?_⟩
      simp only [ha]
      rw [if_neg (by simp)]
      unfold cosmosReadThroughput
      repeat' split
      all_goals simp [attrLookup, dSet, List.foldl, List.lookup]
    · obtain ⟨a, b, hab⟩ := List.length_eq_two.mp h2
      refine ⟨b.1, by simp [hab], ?_⟩
      simp only [hab]
      rw [if_neg (by simp)]
      unfold cosmosReadThroughput
      repeat' split
      all_goals simp [attrLookup, dSet, List.foldl, List.lookup]

/-- Witness for C10: a concrete collection with three shard keys makes
the Read handler fail with the shard-key-count error, and one with a
single shard key stores that key in `shard_key`. -/
theorem cosmos_read_shard_key_check_witness :
    (resourceArmCosmosDbMongoCollectionRead cosmosReadThreeKeysW stIdW).2 =
      some (.shardKeys 3) ∧
    ∃ k, k ∈ ([("k1", "Hash")] : List (String × String)).map Prod.fst ∧
      attrLookup (resourceArmCosmosDbMongoCollectionRead cosmosReadOneKeyW stIdW).1
        "shard_key" = some (.str k) :=
  ⟨(cosmos_read_shard_key_check cosmosReadThreeKeysW stIdW cosmosIdW
      { id := some "coll1", shardKey := [("k1", "Hash"), ("k2", "Hash"), ("k3", "Hash")]
        indexes := none } rfl rfl rfl).1 (by decide),
   (cosmos_read_shard_key_check cosmosReadOneKeyW stIdW cosmosIdW
      { id := some "coll1", shardKey := [("k1", "Hash")], indexes := none }
      rfl rfl rfl).2.2 (Or.inl rfl)⟩

end Installer
